import Mathlib

/-!
# The Orka create step: `builder/orka/step_orka_create.go`

A shallow embedding of `stepOrkaCreate` (its three failure flags, `createOrkaToken`,
`Run`, `precopyImageDelete` and `Cleanup`) together with the collaborators the step
talks to: the HTTP client, the state bag and the two library calls whose result
decides control flow (`strconv.Atoi`, `version.NewVersion` / `LessThanOrEqual`).

Conventions of the embedding

* A Go function that can abort with a run-time panic returns an `Exit`: either
  `returned a` or `panicked why`.  The world reached at the moment of the panic is
  kept, so that the requests issued before it stay observable.
* The client is a function of the requests it has already received and of the
  current request; every call appends the request to `World.calls`.
* `ui.Say` and `ui.Error` write to an external sink and never influence control
  flow; they are left out, except that the evaluation of their arguments is kept
  where it can panic (`Errors[0].Message`).
* `defer resp.Body.Close()` evaluates `resp.Body` when the `defer` statement is
  executed, hence panics there when `resp` is nil.
-/

namespace Orka

/-! ## Data model -/

/-- HTTP methods used by the step. -/
inductive Method where
  | GET
  | POST
  | DELETE
  deriving DecidableEq, Repr

/-- Modelled from the spec: the request data types (`TokenLoginRequest`,
`ImageCopyRequest`, `VMCreateRequest`, `VMDeployRequest`, `ImageDeleteRequest`,
`VMPurgeRequest`) are declared outside `step_orka_create.go`.  A request body is the
JSON encoding of one of them; it is kept in structured form, one constructor per
type, with the fields in the order the source fills them.  `nil` is the absent body
of the health-check and token-revoke requests. -/
inductive Payload where
  | nil
  | TokenLoginRequest (user password : String)
  | ImageCopyRequest (source destination : String)
  | VMCreateRequest (OrkaVMName OrkaVMImage OrkaImage : String) (OrkaCPUCore VCPUCount : Int)
      (OrkaEnableIOBoost : Bool) (OrkaVMTag : String)
  | VMDeployRequest (name : String)
  | ImageDeleteRequest (name : String)
  | VMPurgeRequest (name : String)
  deriving DecidableEq, Repr

/-- An `http.Request` as built by the step: method, URL, the two headers the step
sets (absent when it does not set them) and the body. -/
structure Request where
  method : Method
  url : String
  contentType : Option String
  authorization : Option String
  body : Payload
  deriving DecidableEq, Repr

/-- Modelled from the spec: the response data types (`TokenLoginResponse`,
`ImageCopyResponse`, `VMCreateResponse`, `VMDeployResponse`, `HealthCheckResponse`)
are declared outside `step_orka_create.go`.  A response is its status code, its status
line and the result of `json.Unmarshal` of its body into the data type of the call:
`Errors` is the list of `message` entries (empty when the body carries none or is not
JSON), the other fields are the strings the step reads (empty when absent). -/
structure Response where
  StatusCode : Int
  Status : String
  Errors : List String
  Token : String
  VMId : String
  IP : String
  SSHPort : String
  Version : String
  deriving DecidableEq, Repr

/-- The pair `(*http.Response, error)` returned by `client.Do`; each component may be
nil. -/
structure Reply where
  resp : Option Response
  err : Option String
  deriving DecidableEq, Repr

/-- The `HttpClient` collaborator: given the requests already received and the current
request, the reply. -/
abbrev HttpClient := List Request → Request → Reply

/-- Modelled from the spec: the `Config` type is declared outside
`step_orka_create.go`; these are the fields the step reads.  `OrkaNodeIPMap` is the Go
map as an association list.  `OrkaVMBuilderEnableIOBoost` is the value behind the
pointer, which configuration preparation is taken to have set. -/
structure Config where
  OrkaEndpoint : String
  OrkaUser : String
  OrkaPassword : String
  SourceImage : String
  ImageName : String
  ImagePrecopy : Bool
  NoCreateImage : Bool
  NoDeleteVM : Bool
  OrkaVMBuilderName : String
  OrkaVMCPUCore : Int
  OrkaVMBuilderEnableIOBoost : Bool
  OrkaVMTag : String
  EnableOrkaNodeIPMapping : Bool
  OrkaNodeIPMap : List (String × String)
  deriving DecidableEq, Repr

/-- What the step reads from its surroundings: the `config` and `client` entries of the
state bag, and the two message constants of the package, which are declared outside
`step_orka_create.go` and therefore taken as parameters. -/
structure Env where
  config : Config
  client : HttpClient
  OrkaAPIRequestErrorMessage : String
  OrkaAPIResponseErrorMessage : String

/-- Values the step stores in the state bag: strings (`token`, `vmid`, `ssh_host`),
integers (`ssh_port`) and errors (`error`). -/
inductive Value where
  | str (s : String)
  | int (n : Int)
  | err (msg : String)
  deriving DecidableEq, Repr

/-- The `multistep.StateBag`, restricted to the entries the step writes. -/
abbrev StateBag := String → Option Value

/-- The bag with no entry. -/
def StateBag.empty : StateBag := fun _ => none

/-- Method `state.Put(key, value)`. -/
def StateBag.Put (bag : StateBag) (key : String) (value : Value) : StateBag :=
  fun k => if k = key then some value else bag k

/-- Method `state.Get(key)`. -/
def StateBag.Get (bag : StateBag) (key : String) : Option Value := bag key

/-- The receiver of the step's methods: the three failure flags. -/
structure stepOrkaCreate where
  loginFailed : Bool
  createVMFailed : Bool
  precopyFailed : Bool
  deriving DecidableEq, Repr

/-- A freshly constructed controller, `&stepOrkaCreate{}`. -/
def stepOrkaCreate.fresh : stepOrkaCreate :=
  { loginFailed := false, createVMFailed := false, precopyFailed := false }

/-- Everything the step mutates: its own flags, the state bag, and the log of requests
handed to the client, oldest first. -/
structure World where
  step : stepOrkaCreate
  bag : StateBag
  calls : List Request

/-- Run-time panics the step can raise. -/
inductive Panic where
  | nilDereference
  | indexOutOfRange
  | typeAssertion
  deriving DecidableEq, Repr

/-- How a Go function call ends. -/
inductive Exit (α : Type) where
  | returned (a : α)
  | panicked (why : Panic)
  deriving DecidableEq, Repr

/-- The two `multistep.StepAction` values the step returns. -/
inductive StepAction where
  | ActionContinue
  | ActionHalt
  deriving DecidableEq, Repr

/-- Call `client.Do(req)`: the reply of the client, and the world with the request
logged. -/
def World.Do (env : Env) (w : World) (req : Request) : Reply × World :=
  (env.client w.calls req, { w with calls := w.calls ++ [req] })

/-! ## Library calls -/

/-- Decimal value of a non-empty string of ASCII digits, read left to right. -/
def parseDigitsFrom : List Char → Nat → Option Nat
  | [], acc => some acc
  | c :: cs, acc =>
    if c.isDigit then parseDigitsFrom cs (acc * 10 + (c.toNat - 48)) else none

/-- Decimal value of a string of ASCII digits; nothing for the empty string. -/
def parseDigits (cs : List Char) : Option Nat :=
  match cs with
  | [] => none
  | _ :: _ => parseDigitsFrom cs 0

/-- The text `strconv.Atoi` reads digits from: the string without one leading sign. -/
def unsignedPart (s : String) : List Char :=
  match s.data with
  | '-' :: r => r
  | '+' :: r => r
  | r => r

/-- The two errors of package `strconv`. -/
inductive NumError where
  | ErrSyntax
  | ErrRange
  deriving DecidableEq, Repr

/-- The largest `uint64`. -/
def maxUint64 : Nat := 2 ^ 64 - 1

/-- The loop of `strconv.ParseUint(s, 10, 64)` over the characters of the text, `n` being
the value read so far.  A character that is not a decimal digit ends it with a syntax
error and the value 0; a digit that takes the value beyond 64 bits ends it at once with a
range error and the value `maxUint64`, whatever follows. -/
def ParseUintFrom : List Char → Nat → Nat × Option NumError
  | [], n => (n, none)
  | c :: cs, n =>
    if c.isDigit then
      if maxUint64 / 10 + 1 ≤ n then (maxUint64, some .ErrRange)
      else if maxUint64 < n * 10 + (c.toNat - 48) then (maxUint64, some .ErrRange)
      else ParseUintFrom cs (n * 10 + (c.toNat - 48))
    else (0, some .ErrSyntax)

/-- Library call `strconv.ParseUint(s, 10, 64)`: the empty text is a syntax error. -/
def ParseUint (cs : List Char) : Nat × Option NumError :=
  match cs with
  | [] => (0, some .ErrSyntax)
  | _ :: _ => ParseUintFrom cs 0

/-- Library call `strconv.ParseInt(s, 10, 64)`: one leading sign is picked off, the rest
goes through `ParseUint`; a syntax error gives 0, a value out of the `int64` range gives
the nearest bound with a range error. -/
def ParseInt (s : String) : Int × Option NumError :=
  if s.data = [] then (0, some .ErrSyntax)
  else
    let neg : Bool := s.data.head? == some '-'
    match ParseUint (unsignedPart s) with
    | (_, some .ErrSyntax) => (0, some .ErrSyntax)
    | (un, _) =>
      if neg = false ∧ 2 ^ 63 ≤ un then ((2 ^ 63 - 1 : Int), some .ErrRange)
      else if neg = true ∧ 2 ^ 63 < un then (-(2 ^ 63 : Int), some .ErrRange)
      else (if neg then -(un : Int) else (un : Int), none)

/-- Library call `strconv.Atoi` for a 64-bit `int`.  The first component is the returned
integer, the second tells whether the returned error is nil.  `Atoi` returns what
`ParseInt(s, 10, 0)` returns; its fast path for strings shorter than 19 bytes computes the
same pair, since no value that short leaves the `int64` range. -/
def Atoi (s : String) : Int × Bool :=
  ((ParseInt s).1, (ParseInt s).2.isNone)

/-- Split a string at every occurrence of a separator, as `strings.Split` does for a
one-character separator: the result is never empty. -/
def splitOnChar (sep : Char) : List Char → List (List Char)
  | [] => [[]]
  | c :: cs =>
    match splitOnChar sep cs with
    | [] => [[c]]
    | p :: ps => if c = sep then [] :: p :: ps else (c :: p) :: ps

/-- A parsed version of the library `hashicorp/go-version`: the numeric segments (at
least three), the pre-release string and the metadata string. -/
structure Version where
  metadata : String
  pre : String
  segments : List Nat
  deriving DecidableEq, Repr

/-- Characters of the classes `[A-Za-z\-~]` of the version grammar. -/
def isPreStart (c : Char) : Bool := c.isAlpha || c == '-' || c == '~'

/-- Characters of the class `[0-9A-Za-z\-~]` of the version grammar. -/
def isIdentChar (c : Char) : Bool := c.isDigit || isPreStart c

/-- A match of `[0-9A-Za-z\-~]+(\.[0-9A-Za-z\-~]+)*`: dot-separated, no part empty. -/
def isDotted (cs : List Char) : Bool :=
  (splitOnChar '.' cs).all (fun part => !part.isEmpty && part.all isIdentChar)

/-- The pre-release captured by
`(-([0-9]+[0-9A-Za-z\-~]*(\.[0-9A-Za-z\-~]+)*)|(-?([A-Za-z\-~]+[0-9A-Za-z\-~]*(\.[0-9A-Za-z\-~]+)*)))?`
on the text between the segments and the metadata; nothing when the text does not
match.  The alternatives are tried in the order of the expression. -/
def parsePre (cs : List Char) : Option (List Char) :=
  match cs with
  | [] => some []
  | c :: p =>
    if c = '-' ∧ isDotted p ∧ (p.head?.map Char.isDigit = some true) then some p
    else if c = '-' ∧ isDotted p ∧ (p.head?.map isPreStart = some true) then some p
    else if isDotted cs ∧ isPreStart c then some cs
    else none

/-- The numeric segments `[0-9]+(\.[0-9]+)*`, each read by `strconv.ParseInt(_, 10, 64)`;
nothing when a part is empty, is not a number or does not fit 63 bits. -/
def parseSegments : List (List Char) → Option (List Nat)
  | [] => some []
  | part :: rest =>
    match parseDigits part with
    | none => none
    | some n =>
      if n < 2 ^ 63 then
        match parseSegments rest with
        | none => none
        | some ns => some (n :: ns)
      else none

/-- Library call `version.NewVersion` of `hashicorp/go-version`: an optional `v`, the
dotted numeric segments, an optional pre-release and an optional `+metadata`; the
segments are padded with zeros to three.  Nothing stands for the nil version returned
with an error. -/
def NewVersion (v : String) : Option Version :=
  let cs : List Char := match v.data with
    | 'v' :: r => r
    | r => r
  let isSeg : Char → Bool := fun c => c.isDigit || c == '.'
  let segText := cs.takeWhile isSeg
  let rest := cs.dropWhile isSeg
  let preText := rest.takeWhile (fun c => c != '+')
  let metaText := (rest.dropWhile (fun c => c != '+')).drop 1
  let metaOk : Bool := if rest.contains '+' then isDotted metaText else true
  match parseSegments (splitOnChar '.' segText), parsePre preText with
  | some segs, some pre =>
    if metaOk then
      some { metadata := String.mk metaText, pre := String.mk pre,
             segments := segs ++ List.replicate (3 - segs.length) 0 }
    else none
  | _, _ => none

/-- Method `String` of a version: segments joined by dots, then `-pre`, then
`+metadata`. -/
def Version.String (v : Version) : String :=
  let base := ".".intercalate (v.segments.map toString)
  let withPre := if v.pre ≠ "" then base ++ "-" ++ v.pre else base
  if v.metadata ≠ "" then withPre ++ "+" ++ v.metadata else withPre

/-- Library function `comparePart` of `hashicorp/go-version`.  `strconv.ParseInt(_, 10, 64)`
reads a part as `Atoi` does. -/
def comparePart (preSelf preOther : String) : Int :=
  if preSelf = preOther then 0
  else
    let selfInt : Int := (Atoi preSelf).1
    let selfNumeric : Bool := (Atoi preSelf).2
    let otherInt : Int := (Atoi preOther).1
    let otherNumeric : Bool := (Atoi preOther).2
    if preSelf = "" then (if otherNumeric then -1 else 1)
    else if preOther = "" then (if selfNumeric then 1 else -1)
    else if selfNumeric ∧ ¬ otherNumeric then -1
    else if ¬ selfNumeric ∧ otherNumeric then 1
    else if ¬ selfNumeric ∧ ¬ otherNumeric ∧ preOther < preSelf then 1
    else if otherInt < selfInt then 1
    else -1

/-- The loop of `comparePrereleases` over the parts of both pre-releases, a missing part
counting as empty. -/
def comparePreParts : List String → List String → Int
  | [], [] => 0
  | a :: as, [] => if comparePart a "" ≠ 0 then comparePart a "" else comparePreParts as []
  | [], b :: bs => if comparePart "" b ≠ 0 then comparePart "" b else comparePreParts [] bs
  | a :: as, b :: bs => if comparePart a b ≠ 0 then comparePart a b else comparePreParts as bs

/-- Library function `comparePrereleases` of `hashicorp/go-version`. -/
def comparePrereleases (v other : String) : Int :=
  if v = other then 0
  else comparePreParts ((splitOnChar '.' v.data).map String.mk)
    ((splitOnChar '.' other.data).map String.mk)

/-- The segment loop of `Compare`: the first differing position decides; where one
version has run out of segments, the other is greater exactly when one of its remaining
segments is not zero. -/
def compareSegments : List Nat → List Nat → Int
  | [], [] => 0
  | [], b :: bs => if (b :: bs).all (fun n => n == 0) then 0 else -1
  | a :: as, [] => if (a :: as).all (fun n => n == 0) then 0 else 1
  | a :: as, b :: bs => if a = b then compareSegments as bs else if a < b then -1 else 1

/-- Method `Compare` of `hashicorp/go-version`. -/
def Version.Compare (v other : Version) : Int :=
  if v.String = other.String then 0
  else if v.segments = other.segments then
    if v.pre = "" ∧ other.pre = "" then 0
    else if v.pre = "" then 1
    else if other.pre = "" then -1
    else comparePrereleases v.pre other.pre
  else compareSegments v.segments other.segments

/-- Method `LessThanOrEqual` of `hashicorp/go-version`. -/
def Version.LessThanOrEqual (v o : Version) : Bool := decide (v.Compare o ≤ 0)

/-! ## Requests built by the step -/

/-- The login request of `createOrkaToken` (lines 31-38). -/
def loginRequest (config : Config) : Request :=
  { method := .POST
    url := config.OrkaEndpoint ++ "/" ++ "token"
    contentType := some "application/json"
    authorization := none
    body := .TokenLoginRequest config.OrkaUser config.OrkaPassword }

/-- The pre-copy request of `Run` (lines 100-108). -/
def imageCopyRequest (config : Config) (token : String) : Request :=
  { method := .POST
    url := config.OrkaEndpoint ++ "/" ++ "resources/image/copy"
    contentType := some "application/json"
    authorization := some ("Bearer " ++ token)
    body := .ImageCopyRequest config.SourceImage config.ImageName }

/-- The VM-configuration request of `Run` (lines 156-172). -/
def vmCreateConfigRequest (config : Config) (token actualImage : String) : Request :=
  { method := .POST
    url := config.OrkaEndpoint ++ "/" ++ "resources/vm/create"
    contentType := some "application/json"
    authorization := some ("Bearer " ++ token)
    body := .VMCreateRequest config.OrkaVMBuilderName actualImage config.OrkaVMBuilderName
      config.OrkaVMCPUCore config.OrkaVMCPUCore config.OrkaVMBuilderEnableIOBoost
      config.OrkaVMTag }

/-- The deploy request of `Run` (lines 206-214). -/
def vmDeployRequest (config : Config) (token : String) : Request :=
  { method := .POST
    url := config.OrkaEndpoint ++ "/" ++ "resources/vm/deploy"
    contentType := some "application/json"
    authorization := some ("Bearer " ++ token)
    body := .VMDeployRequest config.OrkaVMBuilderName }

/-- The image-delete request of `precopyImageDelete` (lines 280-288). -/
def imageDeleteRequest (config : Config) (token : String) : Request :=
  { method := .DELETE
    url := config.OrkaEndpoint ++ "/" ++ "resources/image/delete"
    contentType := some "application/json"
    authorization := some ("Bearer " ++ token)
    body := .ImageDeleteRequest config.OrkaVMBuilderName }

/-- The purge request of `Cleanup` (lines 354-363). -/
def vmPurgeRequest (config : Config) (token : String) : Request :=
  { method := .DELETE
    url := config.OrkaEndpoint ++ "/" ++ "resources/vm/purge"
    contentType := some "application/json"
    authorization := some ("Bearer " ++ token)
    body := .VMPurgeRequest config.OrkaVMBuilderName }

/-- The health-check request of `Cleanup` (lines 384-388): no header, no body. -/
def healthCheckRequest (config : Config) : Request :=
  { method := .GET
    url := config.OrkaEndpoint ++ "/" ++ "health-check"
    contentType := none
    authorization := none
    body := .nil }

/-- The token-revoke request of `Cleanup` (lines 420-427). -/
def revokeTokenRequest (config : Config) (token : String) : Request :=
  { method := .DELETE
    url := config.OrkaEndpoint ++ "/" ++ "token"
    contentType := some "application/json"
    authorization := some ("Bearer " ++ token)
    body := .nil }

/-! ## The forward phase -/

/-- Method `createOrkaToken` (lines 23-58).  The result is the pair `(string, error)`. -/
def createOrkaToken (env : Env) (w : World) : Exit (String × Option String) × World :=
  let r := w.Do env (loginRequest env.config)
  match r.1.err with
  | some err => (.returned ("", some ("Error while logging into the Orka API: " ++ err)), r.2)
  | none =>
    match r.1.resp with
    | none => (.panicked .nilDereference, r.2)
    | some resp =>
      if resp.StatusCode ≠ 200 then
        match resp.Errors with
        | [] => (.panicked .indexOutOfRange, r.2)
        | message :: _ => (.returned ("", some (resp.Status ++ " - " ++ message)), r.2)
      else (.returned (resp.Token, none), r.2)

/-- The end of `Run` (lines 242-270), after a deploy response with status 200: publish
`vmid`, resolve the host, publish `ssh_port` and `ssh_host`. -/
def Run_store (env : Env) (resp : Response) (w : World) : Exit StepAction × World :=
  let w1 : World := { w with bag := w.bag.Put "vmid" (.str resp.VMId) }
  let sshHost : String :=
    if env.config.EnableOrkaNodeIPMapping then (env.config.OrkaNodeIPMap.lookup resp.IP).getD ""
    else resp.IP
  if env.config.EnableOrkaNodeIPMapping ∧ sshHost = "" then
    (.returned .ActionHalt,
      { w1 with bag := w1.bag.Put "error" (.err ("VM IP[" ++ resp.IP ++
          "] is not tracked in the provided node ip map. Please provide a mapping for this VM!")) })
  else
    let sshPort : Int := (Atoi resp.SSHPort).1
    (.returned .ActionContinue,
      { w1 with bag := (w1.bag.Put "ssh_port" (.int sshPort)).Put "ssh_host" (.str sshHost) })

/-- The deploy section of `Run` (lines 206-234).  A transport error is recorded and
execution goes on to the `defer` statement. -/
def Run_deploy (env : Env) (token : String) (w : World) : Exit StepAction × World :=
  let r := w.Do env (vmDeployRequest env.config token)
  let w1 : World :=
    match r.1.err with
    | some err => { r.2 with bag := r.2.bag.Put "error" (.err err) }
    | none => r.2
  match r.1.resp with
  | none => (.panicked .nilDereference, w1)
  | some resp =>
    if resp.StatusCode ≠ 200 then
      let w2 : World :=
        { w1 with
          bag := w1.bag.Put "error"
            (.err ("Error from API while deploying Orka VM: " ++ resp.Status)) }
      match resp.Errors with
      | [] => (.panicked .indexOutOfRange, w2)
      | _ :: _ =>
        (.returned .ActionHalt, { w2 with step := { w2.step with createVMFailed := true } })
    else Run_store env resp w1

/-- The VM-configuration section of `Run` (lines 156-194). -/
def Run_create (env : Env) (token actualImage : String) (w : World) : Exit StepAction × World :=
  let r := w.Do env (vmCreateConfigRequest env.config token actualImage)
  match r.1.err with
  | some _ => (.returned .ActionHalt, r.2)
  | none =>
    match r.1.resp with
    | none => (.panicked .nilDereference, r.2)
    | some resp =>
      if resp.StatusCode ≠ 201 then
        match resp.Errors with
        | [] => (.panicked .indexOutOfRange, r.2)
        | _ :: _ =>
          (.returned .ActionHalt,
            { r.2 with
              bag := r.2.bag.Put "error"
                (.err (env.OrkaAPIResponseErrorMessage ++ " [" ++ resp.Status ++ "]"))
              step := { r.2.step with createVMFailed := true } })
      else Run_deploy env token r.2

/-- The pre-copy section of `Run` (lines 91-146); it hands the image to launch the VM
with to the next section. -/
def Run_precopy (env : Env) (token : String) (w : World) : Exit StepAction × World :=
  if env.config.ImagePrecopy then
    if env.config.NoCreateImage then Run_create env token env.config.SourceImage w
    else
      let r := w.Do env (imageCopyRequest env.config token)
      match r.1.err with
      | some err =>
        (.returned .ActionHalt,
          { r.2 with
            bag := r.2.bag.Put "error" (.err err)
            step := { r.2.step with createVMFailed := true, precopyFailed := true } })
      | none =>
        match r.1.resp with
        | none => (.panicked .nilDereference, r.2)
        | some resp =>
          if resp.StatusCode ≠ 200 then
            match resp.Errors with
            | [] => (.panicked .indexOutOfRange, r.2)
            | _ :: _ =>
              (.returned .ActionHalt,
                { r.2 with
                  bag := r.2.bag.Put "error" (.err ("Error from API: " ++ resp.Status))
                  step := { r.2.step with createVMFailed := true } })
          else Run_create env token env.config.ImageName r.2
  else Run_create env token env.config.SourceImage w

/-- Method `Run` (lines 60-271). -/
def Run (env : Env) (w : World) : Exit StepAction × World :=
  match createOrkaToken env w with
  | (.panicked why, w1) => (.panicked why, w1)
  | (.returned (_, some err), w1) =>
    (.returned .ActionHalt,
      { w1 with
        bag := w1.bag.Put "error" (.err err)
        step := { w1.step with loginFailed := true } })
  | (.returned (token, none), w1) =>
    Run_precopy env token { w1 with bag := w1.bag.Put "token" (.str token) }

/-! ## The cleanup phase -/

/-- Method `precopyImageDelete` (lines 273-310).  The result is the returned `error`. -/
def precopyImageDelete (env : Env) (w : World) : Exit (Option String) × World :=
  match w.bag.Get "token" with
  | some (.str token) =>
    let r := w.Do env (imageDeleteRequest env.config token)
    match r.1.err with
    | some err =>
      let e := env.OrkaAPIRequestErrorMessage ++ " [" ++ err ++ "]"
      (.returned (some e), { r.2 with bag := r.2.bag.Put "error" (.err e) })
    | none =>
      match r.1.resp with
      | none => (.panicked .nilDereference, r.2)
      | some resp =>
        if resp.StatusCode ≠ 200 then
          let e := "Image could not be deleted [" ++ resp.Status ++ "]"
          (.returned (some e), { r.2 with bag := r.2.bag.Put "error" (.err e) })
        else (.returned none, r.2)
  | _ => (.panicked .typeAssertion, w)

/-- The token-revoke section of `Cleanup` (lines 418-445). -/
def Cleanup_revoke (env : Env) (token : String) (w : World) : Exit Unit × World :=
  let r := w.Do env (revokeTokenRequest env.config token)
  let w1 : World :=
    match r.1.err with
    | some err =>
      { r.2 with
        bag := r.2.bag.Put "error"
          (.err (env.OrkaAPIRequestErrorMessage ++ " [" ++ err ++ "]")) }
    | none => r.2
  match r.1.resp with
  | none => (.panicked .nilDereference, w1)
  | some resp =>
    if resp.StatusCode ≠ 200 then
      (.returned (),
        { w1 with
          bag := w1.bag.Put "error"
            (.err (env.OrkaAPIResponseErrorMessage ++ " [" ++ resp.Status ++ "]")) })
    else (.returned (), w1)

/-- The version threshold of `Cleanup` (line 414). -/
def singleTokenVersion : Option Version := NewVersion "2.1.1"

/-- The health-check section of `Cleanup` (lines 382-416) and the version check of the
token revocation.  `LessThanOrEqual` on a nil version panics. -/
def Cleanup_healthCheck (env : Env) (token : String) (w : World) : Exit Unit × World :=
  let r := w.Do env (healthCheckRequest env.config)
  let w1 : World :=
    match r.1.err with
    | some err =>
      { r.2 with
        bag := r.2.bag.Put "error"
          (.err (env.OrkaAPIRequestErrorMessage ++ " [" ++ err ++ "]")) }
    | none => r.2
  match r.1.resp with
  | none => (.panicked .nilDereference, w1)
  | some resp =>
    let revokeIfOld : World → Exit Unit × World := fun w2 =>
      match NewVersion resp.Version, singleTokenVersion with
      | some serverVersion, some threshold =>
        if serverVersion.LessThanOrEqual threshold then Cleanup_revoke env token w2
        else (.returned (), w2)
      | _, _ => (.panicked .nilDereference, w2)
    if resp.StatusCode ≠ 200 then
      match resp.Errors with
      | [] => (.panicked .indexOutOfRange, w1)
      | _ :: _ =>
        revokeIfOld
          { w1 with
            bag := w1.bag.Put "error"
              (.err (env.OrkaAPIResponseErrorMessage ++ " [" ++ resp.Status ++ "]")) }
    else revokeIfOld w1

/-- The purge section of `Cleanup` (lines 350-380). -/
def Cleanup_purge (env : Env) (token : String) (w : World) : Exit Unit × World :=
  let r := w.Do env (vmPurgeRequest env.config token)
  let w1 : World :=
    match r.1.err with
    | some err =>
      { r.2 with
        bag := r.2.bag.Put "error"
          (.err (env.OrkaAPIRequestErrorMessage ++ " [" ++ err ++ "]")) }
    | none => r.2
  match r.1.resp with
  | none => (.panicked .nilDereference, w1)
  | some resp =>
    if resp.StatusCode ≠ 200 then
      Cleanup_healthCheck env token
        { w1 with
          bag := w1.bag.Put "error"
            (.err (env.OrkaAPIResponseErrorMessage ++ " [" ++ resp.Status ++ "]")) }
    else Cleanup_healthCheck env token w1

/-- Method `Cleanup` (lines 312-446). -/
def Cleanup (env : Env) (w : World) : Exit Unit × World :=
  if w.step.loginFailed then (.returned (), w)
  else
    match w.bag.Get "token" with
    | some (.str token) =>
      if env.config.NoDeleteVM then (.returned (), w)
      else if w.step.createVMFailed then
        if env.config.ImagePrecopy then
          match precopyImageDelete env w with
          | (.panicked why, w1) => (.panicked why, w1)
          | (.returned _, w1) => (.returned (), w1)
        else (.returned (), w)
      else Cleanup_purge env token w
    | _ => (.panicked .typeAssertion, w)

/-! ## Replies in program order

The reply the client gives to each call of the forward phase, when that call is
reached from the world `w` with the token `token`. -/

/-- Reply to the login call. -/
def loginReply (env : Env) (w : World) : Reply :=
  env.client w.calls (loginRequest env.config)

/-- Whether `Run` issues the pre-copy call (lines 93-96). -/
def precopyIssued (config : Config) : Bool :=
  config.ImagePrecopy && !config.NoCreateImage

/-- Reply to the pre-copy call. -/
def copyReply (env : Env) (w : World) (token : String) : Reply :=
  env.client (w.calls ++ [loginRequest env.config]) (imageCopyRequest env.config token)

/-- The requests logged when the VM-configuration call is reached. -/
def callsBeforeCreate (env : Env) (w : World) (token : String) : List Request :=
  if precopyIssued env.config then
    w.calls ++ [loginRequest env.config] ++ [imageCopyRequest env.config token]
  else w.calls ++ [loginRequest env.config]

/-- The image the VM-configuration call names when it is reached (`actualImage`). -/
def actualImage (config : Config) : String :=
  if precopyIssued config then config.ImageName else config.SourceImage

/-- Reply to the VM-configuration call. -/
def createReply (env : Env) (w : World) (token : String) : Reply :=
  env.client (callsBeforeCreate env w token)
    (vmCreateConfigRequest env.config token (actualImage env.config))

/-- Reply to the deploy call. -/
def deployReply (env : Env) (w : World) (token : String) : Reply :=
  env.client
    (callsBeforeCreate env w token ++
      [vmCreateConfigRequest env.config token (actualImage env.config)])
    (vmDeployRequest env.config token)

/-! ## Flags -/

/-- No flag goes from true to false between two values of the controller. -/
def FlagsLe (a b : stepOrkaCreate) : Prop :=
  (a.loginFailed = true → b.loginFailed = true) ∧
  (a.createVMFailed = true → b.createVMFailed = true) ∧
  (a.precopyFailed = true → b.precopyFailed = true)

/-- The invariant of the flags: `precopyFailed` implies `createVMFailed`. -/
def FlagsInv (s : stepOrkaCreate) : Prop :=
  s.precopyFailed = true → s.createVMFailed = true

/-- What a section of `Run` after the login leaves untouched or only raises. -/
structure Forward (w : World) (r : Exit StepAction × World) : Prop where
  login : r.2.step.loginFailed = w.step.loginFailed
  create : w.step.createVMFailed = true → r.2.step.createVMFailed = true
  precopy : w.step.precopyFailed = true → r.2.step.precopyFailed = true
  inv : FlagsInv w.step → FlagsInv r.2.step
  token : r.2.bag "token" = w.bag "token"
  continued : r.1 = .returned .ActionContinue → r.2.step = w.step

/-- The threshold version 2.1.1, parsed. -/
def threshold : Version := { metadata := "", pre := "", segments := [2, 1, 1] }

/-! ## Notions used in the statements -/

/-- Value of the longest prefix of decimal digits of a text, continuing from `n`. -/
def digitPrefixValueFrom : List Char → Nat → Nat
  | [], n => n
  | c :: cs, n =>
    if c.isDigit then digitPrefixValueFrom cs (n * 10 + (c.toNat - 48)) else n

/-- Value of the longest prefix of decimal digits of a text; 0 when it has none. -/
def digitPrefixValue (cs : List Char) : Nat := digitPrefixValueFrom cs 0

/-- A VM-configuration call: a POST to `{endpoint}/resources/vm/create`. -/
def isCreateCall (config : Config) (r : Request) : Prop :=
  r.method = .POST ∧ r.url = config.OrkaEndpoint ++ "/" ++ "resources/vm/create"

/-- A pre-copy call: a POST to `{endpoint}/resources/image/copy`. -/
def isCopyCall (config : Config) (r : Request) : Prop :=
  r.method = .POST ∧ r.url = config.OrkaEndpoint ++ "/" ++ "resources/image/copy"

/-! ## Concrete scenarios -/

/-- A configuration without pre-copy, with deletion enabled and without IP mapping. -/
def plainConfig : Config :=
  { OrkaEndpoint := "http://orka"
    OrkaUser := "user"
    OrkaPassword := "secret"
    SourceImage := "base.img"
    ImageName := "copy.img"
    ImagePrecopy := false
    NoCreateImage := false
    NoDeleteVM := false
    OrkaVMBuilderName := "builder"
    OrkaVMCPUCore := 3
    OrkaVMBuilderEnableIOBoost := true
    OrkaVMTag := ""
    EnableOrkaNodeIPMapping := false
    OrkaNodeIPMap := [] }

/-- The same configuration with pre-copy configured. -/
def precopyConfig : Config := { plainConfig with ImagePrecopy := true }

/-- The pre-copy configuration with `NoDeleteVM` set. -/
def keepConfig : Config := { precopyConfig with NoDeleteVM := true }

/-- A response with the given status code, error entries and version, the token `tok`
and the address 10.0.0.5:8822. -/
def response (code : Int) (errors : List String) (version : String) : Response :=
  { StatusCode := code
    Status := toString code
    Errors := errors
    Token := "tok"
    VMId := "vm-1"
    IP := "10.0.0.5"
    SSHPort := "8822"
    Version := version }

/-- A reply without transport error. -/
def answerVersion (code : Int) (errors : List String) (version : String) : Reply :=
  { resp := some (response code errors version), err := none }

/-- A reply without transport error, reporting version 3.0.0. -/
def answer (code : Int) (errors : List String) : Reply := answerVersion code errors "3.0.0"

/-- A transport error: no response. -/
def refused : Reply := { resp := none, err := some "connection refused" }

/-- Every call of the step answered with its success status. -/
def happyTable : List ((Method × String) × Reply) :=
  [ ((.POST, "http://orka/token"), answer 200 []),
    ((.POST, "http://orka/resources/image/copy"), answer 200 []),
    ((.POST, "http://orka/resources/vm/create"), answer 201 []),
    ((.POST, "http://orka/resources/vm/deploy"), answer 200 []),
    ((.DELETE, "http://orka/resources/image/delete"), answer 200 []),
    ((.DELETE, "http://orka/resources/vm/purge"), answer 200 []),
    ((.GET, "http://orka/health-check"), answer 200 []),
    ((.DELETE, "http://orka/token"), answer 200 []) ]

/-- A client that answers by method and URL: the first matching entry of the overrides,
else of `happyTable`, else a transport error. -/
def tableClient (overrides : List ((Method × String) × Reply)) : HttpClient :=
  fun _ req => ((overrides ++ happyTable).lookup (req.method, req.url)).getD refused

/-- The surroundings of a scenario. -/
def scenario (config : Config) (overrides : List ((Method × String) × Reply)) : Env :=
  { config := config
    client := tableClient overrides
    OrkaAPIRequestErrorMessage := "request failed"
    OrkaAPIResponseErrorMessage := "response failed" }

/-- A fresh controller, an empty bag, no request issued yet. -/
def World.initial : World :=
  { step := stepOrkaCreate.fresh, bag := StateBag.empty, calls := [] }

/-- Everything succeeds. -/
def allGood : Env := scenario plainConfig []

/-- Everything succeeds, and `NoDeleteVM` is set. -/
def allGoodKeep : Env := scenario keepConfig []

/-- Everything succeeds and the platform reports version 2.1.0. -/
def allGoodOld : Env :=
  scenario plainConfig [((.GET, "http://orka/health-check"), answerVersion 200 [] "2.1.0")]

/-- The login is answered 401 with an error entry. -/
def loginRejected : Env :=
  scenario plainConfig [((.POST, "http://orka/token"), answer 401 ["bad credentials"])]

/-- The login is answered 401 without any error entry. -/
def loginRejectedBare : Env :=
  scenario plainConfig [((.POST, "http://orka/token"), answer 401 [])]

/-- Pre-copy configured; the copy call fails with a transport error. -/
def copyRefused : Env :=
  scenario precopyConfig [((.POST, "http://orka/resources/image/copy"), refused)]

/-- Pre-copy configured; the copy call is answered 500 with an error entry. -/
def copyRejected : Env :=
  scenario precopyConfig
    [((.POST, "http://orka/resources/image/copy"), answer 500 ["no space left"])]

/-- Pre-copy configured; the copy call is answered 500 without any error entry. -/
def copyRejectedBare : Env :=
  scenario precopyConfig [((.POST, "http://orka/resources/image/copy"), answer 500 [])]

/-- No pre-copy; the VM-configuration call fails with a transport error. -/
def createRefused : Env :=
  scenario plainConfig [((.POST, "http://orka/resources/vm/create"), refused)]

/-- No pre-copy; the VM-configuration call is answered 500 with an error entry. -/
def createRejected : Env :=
  scenario plainConfig [((.POST, "http://orka/resources/vm/create"), answer 500 ["exists"])]

/-- Pre-copy configured and successful; the VM-configuration call is answered 500 with an
error entry. -/
def createRejectedAfterPrecopy : Env :=
  scenario precopyConfig [((.POST, "http://orka/resources/vm/create"), answer 500 ["exists"])]

/-- Pre-copy configured and successful; the deploy call is answered 500 with an error
entry. -/
def deployRejectedAfterPrecopy : Env :=
  scenario precopyConfig [((.POST, "http://orka/resources/vm/deploy"), answer 500 ["no node"])]

/-- Everything succeeds up to the health check, which is answered 500 without any error
entry while reporting version 2.1.0. -/
def healthCheckBare : Env :=
  scenario plainConfig [((.GET, "http://orka/health-check"), answerVersion 500 [] "2.1.0")]

/-- No pre-copy; the VM-configuration call is answered 500 without any error entry. -/
def createRejectedBare : Env :=
  scenario plainConfig [((.POST, "http://orka/resources/vm/create"), answer 500 [])]

/-- No pre-copy; the deploy call fails with a transport error. -/
def deployRefused : Env :=
  scenario plainConfig [((.POST, "http://orka/resources/vm/deploy"), refused)]

/-- No pre-copy; the deploy call is answered 500 with an error entry. -/
def deployRejected : Env :=
  scenario plainConfig [((.POST, "http://orka/resources/vm/deploy"), answer 500 ["no node"])]

/-- No pre-copy; the deploy call is answered 500 without any error entry. -/
def deployRejectedBare : Env :=
  scenario plainConfig [((.POST, "http://orka/resources/vm/deploy"), answer 500 [])]

/-- Everything succeeds up to the purge call, which fails with a transport error. -/
def purgeRefused : Env :=
  scenario plainConfig [((.DELETE, "http://orka/resources/vm/purge"), refused)]

/-- A reply to the deploy call with status 200 and the given SSH port string. -/
def deployedWithPort (port : String) : Reply :=
  { resp := some { response 200 [] "3.0.0" with SSHPort := port }, err := none }

/-- Everything succeeds; the deploy response carries the SSH port string `ssh`. -/
def portNotNumeric : Env :=
  scenario plainConfig [((.POST, "http://orka/resources/vm/deploy"), deployedWithPort "ssh")]

/-- Everything succeeds; the deploy response carries a decimal SSH port string beyond
64 bits. -/
def portTooLarge : Env :=
  scenario plainConfig
    [((.POST, "http://orka/resources/vm/deploy"), deployedWithPort "99999999999999999999")]

/-- IP mapping enabled, and the address of the deploy response mapped to a host. -/
def mappedConfig : Config :=
  { plainConfig with
    EnableOrkaNodeIPMapping := true
    OrkaNodeIPMap := [("10.0.0.5", "node-5.internal")] }

/-- IP mapping enabled, and the address of the deploy response not a key of the map. -/
def unmappedConfig : Config :=
  { plainConfig with
    EnableOrkaNodeIPMapping := true
    OrkaNodeIPMap := [("10.0.0.9", "node-9.internal")] }

/-- IP mapping enabled, and the address of the deploy response a key of the map, with
the empty string as its value. -/
def emptyHostConfig : Config :=
  { plainConfig with
    EnableOrkaNodeIPMapping := true
    OrkaNodeIPMap := [("10.0.0.5", "")] }

/-- Everything succeeds, IP mapping enabled with the address mapped. -/
def allGoodMapped : Env := scenario mappedConfig []

/-- Everything succeeds, IP mapping enabled with the address not in the map. -/
def allGoodUnmapped : Env := scenario unmappedConfig []

/-- Everything succeeds, IP mapping enabled with the address mapped to the empty string. -/
def allGoodEmptyHost : Env := scenario emptyHostConfig []

/-- Everything succeeds, pre-copy configured. -/
def allGoodPrecopy : Env := scenario precopyConfig []

/-- Everything succeeds; the deploy response carries an SSH port string of twenty digits
followed by a letter. -/
def portOverflowThenLetter : Env :=
  scenario plainConfig
    [((.POST, "http://orka/resources/vm/deploy"), deployedWithPort "99999999999999999999x")]

/-! ## Supporting lemmas -/

theorem Run_store_forward (env : Env) (resp : Response) (w : World) :
    Forward w (Run_store env resp w) := by
  unfold Run_store
  constructor <;> (simp only []; split_ifs) <;> simp [StateBag.Put, FlagsInv]

theorem Forward.of_eq {w w1 : World} {r : Exit StepAction × World} (h : Forward w1 r)
    (h1 : w1.step = w.step) (h2 : w1.bag "token" = w.bag "token") : Forward w r := by
  constructor
  · rw [← h1]; exact h.login
  · rw [← h1]; exact h.create
  · rw [← h1]; exact h.precopy
  · rw [← h1]; exact h.inv
  · rw [← h2]; exact h.token
  · rw [← h1]; exact h.continued

theorem Run_deploy_forward (env : Env) (token : String) (w : World) :
    Forward w (Run_deploy env token w) := by
  unfold Run_deploy
  simp only [World.Do]
  repeat' split
  all_goals first
    | exact (Run_store_forward env _ _).of_eq rfl rfl
    | (constructor <;> simp [StateBag.Put, FlagsInv])

theorem Run_create_forward (env : Env) (token image : String) (w : World) :
    Forward w (Run_create env token image w) := by
  unfold Run_create
  simp only [World.Do]
  repeat' split
  all_goals first
    | exact (Run_deploy_forward env token _).of_eq rfl rfl
    | (constructor <;> simp [StateBag.Put, FlagsInv])

theorem Run_precopy_forward (env : Env) (token : String) (w : World) :
    Forward w (Run_precopy env token w) := by
  unfold Run_precopy
  simp only [World.Do]
  repeat' split
  all_goals first
    | exact Run_create_forward env token _ w
    | exact (Run_create_forward env token _ _).of_eq rfl rfl
    | (constructor <;> simp [StateBag.Put, FlagsInv])

/-! ## The login -/

/-- Whatever the login call returns, `createOrkaToken` logs exactly that one request and
touches nothing else. -/
theorem createOrkaToken_world (env : Env) (w : World) :
    (createOrkaToken env w).2 = { w with calls := w.calls ++ [loginRequest env.config] } := by
  unfold createOrkaToken
  simp only [World.Do]
  repeat' split
  all_goals rfl

/-- A login answered with status 200 and no transport error returns the token of the
response. -/
theorem createOrkaToken_ok (env : Env) (w : World) (login : Response)
    (h : loginReply env w = ⟨some login, none⟩) (h200 : login.StatusCode = 200) :
    createOrkaToken env w =
      (.returned (login.Token, none),
        { w with calls := w.calls ++ [loginRequest env.config] }) := by
  unfold loginReply at h
  simp [createOrkaToken, World.Do, h, h200]

/-- The only way for `createOrkaToken` to return a nil error is a login answered with
status 200 and no transport error. -/
theorem createOrkaToken_ok_inv (env : Env) (w : World) (token : String)
    (h : (createOrkaToken env w).1 = .returned (token, none)) :
    ∃ login, loginReply env w = ⟨some login, none⟩ ∧ login.StatusCode = 200 ∧
      login.Token = token := by
  unfold createOrkaToken at h
  simp only [World.Do] at h
  unfold loginReply
  generalize env.client w.calls (loginRequest env.config) = reply at h
  obtain ⟨resp, err⟩ := reply
  cases err with
  | some e => simp at h
  | none =>
    cases resp with
    | none => simp at h
    | some r =>
      by_cases hs : r.StatusCode = 200
      · refine ⟨r, rfl, hs, ?_⟩
        simpa [hs] using h
      · simp only [ne_eq, hs, not_false_eq_true, if_true] at h
        cases hE : r.Errors <;> simp [hE] at h

/-- After a successful login `Run` stores the token and goes on with the pre-copy
section. -/
theorem Run_login_ok (env : Env) (w : World) (login : Response)
    (h : loginReply env w = ⟨some login, none⟩) (h200 : login.StatusCode = 200) :
    Run env w =
      Run_precopy env login.Token
        { w with
          calls := w.calls ++ [loginRequest env.config]
          bag := w.bag.Put "token" (.str login.Token) } := by
  unfold Run
  rw [createOrkaToken_ok env w login h h200]

/-- Every run of `Run` only raises flags and keeps the invariant of the flags. -/
theorem Run_flags (env : Env) (w : World) :
    FlagsLe w.step (Run env w).2.step ∧ (FlagsInv w.step → FlagsInv (Run env w).2.step) := by
  have hw := createOrkaToken_world env w
  unfold Run
  split
  · rename_i why w1 heq
    rw [heq] at hw
    simp only at hw
    subst hw
    simp [FlagsLe]
  · rename_i tok err w1 heq
    rw [heq] at hw
    simp only at hw
    subst hw
    simp [FlagsLe, FlagsInv]
  · rename_i tok w1 heq
    rw [heq] at hw
    simp only at hw
    subst hw
    have hf := Run_precopy_forward env tok
      { step := w.step, bag := w.bag.Put "token" (.str tok),
        calls := w.calls ++ [loginRequest env.config] }
    refine ⟨⟨fun h => ?_, hf.create, hf.precopy⟩, hf.inv⟩
    rw [hf.login]
    exact h

/-- A run that returns `ActionContinue` leaves the flags as they were, and the bag holds
the token of the login response. -/
theorem Run_continue (env : Env) (w : World)
    (h : (Run env w).1 = .returned .ActionContinue) :
    (Run env w).2.step = w.step ∧
    ∃ login, loginReply env w = ⟨some login, none⟩ ∧ login.StatusCode = 200 ∧
      (Run env w).2.bag "token" = some (.str login.Token) := by
  have hw := createOrkaToken_world env w
  unfold Run at h ⊢
  split at h
  · simp at h
  · simp at h
  · rename_i tok w1 heq
    rw [heq] at hw
    simp only at hw
    subst hw
    obtain ⟨login, hl, h200, htok⟩ := createOrkaToken_ok_inv env w tok (by rw [heq])
    subst htok
    simp only [heq]
    have hf := Run_precopy_forward env login.Token
      { step := w.step, bag := w.bag.Put "token" (.str login.Token),
        calls := w.calls ++ [loginRequest env.config] }
    refine ⟨hf.continued h, login, hl, h200, ?_⟩
    rw [hf.token]
    simp [StateBag.Put]

/-! ## The cleanup phase leaves the flags alone -/

theorem precopyImageDelete_step (env : Env) (w : World) :
    (precopyImageDelete env w).2.step = w.step := by
  unfold precopyImageDelete
  simp only [World.Do, StateBag.Get]
  repeat' split
  all_goals rfl

theorem Cleanup_revoke_step (env : Env) (token : String) (w : World) :
    (Cleanup_revoke env token w).2.step = w.step := by
  unfold Cleanup_revoke
  simp only [World.Do]
  repeat' split
  all_goals rfl

theorem Cleanup_healthCheck_step (env : Env) (token : String) (w : World) :
    (Cleanup_healthCheck env token w).2.step = w.step := by
  unfold Cleanup_healthCheck
  simp only [World.Do]
  repeat' split
  all_goals first
    | rfl
    | rw [Cleanup_revoke_step]

theorem Cleanup_purge_step (env : Env) (token : String) (w : World) :
    (Cleanup_purge env token w).2.step = w.step := by
  unfold Cleanup_purge
  simp only [World.Do]
  repeat' split
  all_goals first
    | rfl
    | rw [Cleanup_healthCheck_step]

/-- `Cleanup` never writes a flag. -/
theorem Cleanup_step (env : Env) (w : World) : (Cleanup env w).2.step = w.step := by
  have hd := precopyImageDelete_step env w
  unfold Cleanup
  simp only [StateBag.Get]
  repeat' split
  all_goals first
    | rfl
    | rw [Cleanup_purge_step]
    | (rename_i heq; rw [heq] at hd; exact hd)

/-! ## Sections of the forward phase on given replies -/

/-- When the pre-copy call is not issued, or is answered with status 200, `Run` goes on
to the VM-configuration section with the image `actualImage`. -/
theorem Run_precopy_ok (env : Env) (token : String) (w : World)
    (hcopy : precopyIssued env.config = true →
      ∃ c, env.client w.calls (imageCopyRequest env.config token) = ⟨some c, none⟩ ∧
        c.StatusCode = 200) :
    Run_precopy env token w =
      Run_create env token (actualImage env.config)
        { w with
          calls := if precopyIssued env.config then
              w.calls ++ [imageCopyRequest env.config token]
            else w.calls } := by
  unfold Run_precopy actualImage
  unfold precopyIssued at hcopy ⊢
  cases hp : env.config.ImagePrecopy <;> cases hn : env.config.NoCreateImage <;>
    simp only [hp, hn] at hcopy ⊢ <;> simp
  obtain ⟨c, hc, h200⟩ := hcopy (by decide)
  simp [World.Do, hc, h200]

/-- A VM-configuration call answered with a status other than 201 and at least one error
entry: `Run` halts there, with the error recorded and `createVMFailed` set, and only that
request is logged. -/
theorem Run_create_rejected (env : Env) (token image : String) (w : World) (r : Response)
    (h : env.client w.calls (vmCreateConfigRequest env.config token image) = ⟨some r, none⟩)
    (hs : r.StatusCode ≠ 201) (he : r.Errors ≠ []) :
    (Run_create env token image w).1 = .returned .ActionHalt ∧
    (Run_create env token image w).2.step.createVMFailed = true ∧
    (Run_create env token image w).2.calls =
      w.calls ++ [vmCreateConfigRequest env.config token image] := by
  unfold Run_create
  simp only [World.Do, h, ne_eq, hs, not_false_eq_true, if_true]
  cases hE : r.Errors with
  | nil => exact absurd hE he
  | cons m ms => simp

/-- A VM-configuration call answered with status 201 hands over to the deploy section. -/
theorem Run_create_ok (env : Env) (token image : String) (w : World) (r : Response)
    (h : env.client w.calls (vmCreateConfigRequest env.config token image) = ⟨some r, none⟩)
    (hs : r.StatusCode = 201) :
    Run_create env token image w =
      Run_deploy env token
        { w with calls := w.calls ++ [vmCreateConfigRequest env.config token image] } := by
  unfold Run_create
  simp [World.Do, h, hs]

/-- A deploy call answered with a status other than 200 and at least one error entry:
`Run` halts there with `createVMFailed` set. -/
theorem Run_deploy_rejected (env : Env) (token : String) (w : World) (d : Response)
    (h : (env.client w.calls (vmDeployRequest env.config token)).resp = some d)
    (hs : d.StatusCode ≠ 200) (he : d.Errors ≠ []) :
    (Run_deploy env token w).1 = .returned .ActionHalt ∧
    (Run_deploy env token w).2.step.createVMFailed = true ∧
    (Run_deploy env token w).2.calls = w.calls ++ [vmDeployRequest env.config token] := by
  unfold Run_deploy
  simp only [World.Do, h, ne_eq, hs, not_false_eq_true, if_true]
  cases hE : d.Errors with
  | nil => exact absurd hE he
  | cons m ms =>
    simp only [true_and]
    split <;> simp

/-! ## The cleanup phase on given flags -/

/-- With `NoDeleteVM` set, `Cleanup` changes nothing at all. -/
theorem Cleanup_noDelete (env : Env) (h : env.config.NoDeleteVM = true) (w : World) :
    (Cleanup env w).2 = w := by
  unfold Cleanup
  simp only [StateBag.Get, h, if_true]
  repeat' split
  all_goals rfl

/-- After a failed login, `Cleanup` returns at once. -/
theorem Cleanup_loginFailed (env : Env) (w : World) (h : w.step.loginFailed = true) :
    Cleanup env w = (.returned (), w) := by
  unfold Cleanup
  simp [h]

/-- The requests `precopyImageDelete` logs: the image-delete request and no other. -/
theorem precopyImageDelete_calls (env : Env) (w : World) (token : String)
    (htok : w.bag "token" = some (.str token)) :
    (precopyImageDelete env w).2.calls = w.calls ++ [imageDeleteRequest env.config token] := by
  unfold precopyImageDelete
  simp only [World.Do, StateBag.Get, htok]
  repeat' split
  all_goals rfl

/-- The branch of `Cleanup` taken after a failure of the VM-creation path
(lines 334-348): the image-delete request is issued exactly when `ImagePrecopy` is
configured, and nothing else is issued. -/
theorem Cleanup_createVMFailed (env : Env) (w : World) (token : String)
    (hlogin : w.step.loginFailed = false)
    (htok : w.bag "token" = some (.str token))
    (hnodel : env.config.NoDeleteVM = false)
    (hfail : w.step.createVMFailed = true) :
    (Cleanup env w).2.calls =
      w.calls ++ (if env.config.ImagePrecopy then [imageDeleteRequest env.config token]
        else []) := by
  have hd := precopyImageDelete_calls env w token htok
  unfold Cleanup
  simp only [StateBag.Get, hlogin, htok, hnodel, hfail, if_true, Bool.false_eq_true, if_false]
  split
  · split
    · rename_i heq; rw [heq] at hd; exact hd
    · rename_i heq; rw [heq] at hd; exact hd
  · simp

theorem singleTokenVersion_eq : singleTokenVersion = some threshold := by decide

/-- The token-revoke section logs the token-revoke request and no other, whatever the
reply. -/
theorem Cleanup_revoke_calls (env : Env) (token : String) (w : World) :
    (Cleanup_revoke env token w).2.calls = w.calls ++ [revokeTokenRequest env.config token] := by
  unfold Cleanup_revoke
  simp only [World.Do]
  repeat' split
  all_goals rfl

/-- The health-check section, when the call is answered with a response that has status
200 or carries an error entry and whose version parses: the health-check request is
logged, followed by the token-revoke request exactly when the version is at most the
threshold. -/
theorem Cleanup_healthCheck_calls (env : Env) (token : String) (w : World) (h : Response)
    (v : Version)
    (hh : (env.client w.calls (healthCheckRequest env.config)).resp = some h)
    (hhs : h.StatusCode = 200 ∨ h.Errors ≠ [])
    (hv : NewVersion h.Version = some v) :
    (Cleanup_healthCheck env token w).2.calls =
      w.calls ++ [healthCheckRequest env.config] ++
        (if v.LessThanOrEqual threshold then [revokeTokenRequest env.config token] else []) := by
  unfold Cleanup_healthCheck
  simp only [World.Do, hh, hv, singleTokenVersion_eq]
  by_cases hs : h.StatusCode = 200
  · simp only [ne_eq, hs, not_true_eq_false, if_false]
    by_cases hle : v.LessThanOrEqual threshold = true
    · simp only [hle, if_true]
      rw [Cleanup_revoke_calls]
      split <;> rfl
    · simp only [hle, if_false, Bool.false_eq_true]
      split <;> simp
  · have he : h.Errors ≠ [] := hhs.resolve_left hs
    simp only [ne_eq, hs, not_false_eq_true, if_true]
    cases hE : h.Errors with
    | nil => exact absurd hE he
    | cons m ms =>
      simp only
      by_cases hle : v.LessThanOrEqual threshold = true
      · simp only [hle, if_true]
        rw [Cleanup_revoke_calls]
        split <;> rfl
      · simp only [hle, if_false, Bool.false_eq_true]
        split <;> simp

/-- The nominal branch of `Cleanup` (lines 350-445), when the purge call and the
health-check call are answered with a response, the health-check response has status 200
or carries an error entry, and its version parses: the purge request, then the
health-check request, then the token-revoke request exactly when the version is at most
the threshold. -/
theorem Cleanup_nominal (env : Env) (w : World) (token : String) (p h : Response)
    (v : Version)
    (hlogin : w.step.loginFailed = false)
    (htok : w.bag "token" = some (.str token))
    (hnodel : env.config.NoDeleteVM = false)
    (hok : w.step.createVMFailed = false)
    (hp : (env.client w.calls (vmPurgeRequest env.config token)).resp = some p)
    (hh : (env.client (w.calls ++ [vmPurgeRequest env.config token])
            (healthCheckRequest env.config)).resp = some h)
    (hhs : h.StatusCode = 200 ∨ h.Errors ≠ [])
    (hv : NewVersion h.Version = some v) :
    (Cleanup env w).2.calls =
      w.calls ++ [vmPurgeRequest env.config token, healthCheckRequest env.config] ++
        (if v.LessThanOrEqual threshold then [revokeTokenRequest env.config token] else []) := by
  unfold Cleanup
  simp only [StateBag.Get, hlogin, htok, hnodel, hok, Bool.false_eq_true, if_false]
  unfold Cleanup_purge
  simp only [World.Do, hp]
  split <;> split <;>
    (rw [Cleanup_healthCheck_calls env token _ h v hh hhs hv]; simp)

/-! ## What holds around the claims that fail -/

/-- A login that fails with a transport error, or is answered with a status other than 200
and at least one error entry: `Run` returns `ActionHalt` after that single call, with the
error recorded and `loginFailed` set, and the `Cleanup` that follows returns at once. -/
theorem Run_login_failure (env : Env) (w : World)
    (h : (loginReply env w).err ≠ none ∨
      ∃ r, loginReply env w = ⟨some r, none⟩ ∧ r.StatusCode ≠ 200 ∧ r.Errors ≠ []) :
    (Run env w).1 = .returned .ActionHalt ∧
    (Run env w).2.calls = w.calls ++ [loginRequest env.config] ∧
    (Run env w).2.step.loginFailed = true ∧
    (∃ e, (Run env w).2.bag "error" = some (.err e)) ∧
    Cleanup env (Run env w).2 = (.returned (), (Run env w).2) := by
  have key : (Run env w).1 = .returned .ActionHalt ∧
      (Run env w).2.calls = w.calls ++ [loginRequest env.config] ∧
      (Run env w).2.step.loginFailed = true ∧
      (∃ e, (Run env w).2.bag "error" = some (.err e)) := by
    unfold loginReply at h
    unfold Run createOrkaToken
    simp only [World.Do]
    rcases h with h | ⟨r, hr, hs, he⟩
    · cases herr : (env.client w.calls (loginRequest env.config)).err with
      | none => exact absurd herr h
      | some e => simp [StateBag.Put]
    · simp only [hr, ne_eq, hs, not_false_eq_true, if_true]
      cases hE : r.Errors with
      | nil => exact absurd hE he
      | cons m ms => simp [StateBag.Put]
  exact ⟨key.1, key.2.1, key.2.2.1, key.2.2.2, Cleanup_loginFailed env _ key.2.2.1⟩

/-- Pre-copy configured on a fresh controller with `NoDeleteVM` false, the login succeeds
and the pre-copy call fails with a transport error, or is answered with a status other
than 200 and at least one error entry: `Run` returns `ActionHalt` without issuing the
VM-configuration call, `createVMFailed` is set (and `precopyFailed` too on a transport
error), and the `Cleanup` that follows issues the image-delete request and nothing else. -/
theorem Run_copy_failure (env : Env) (w : World) (login : Response)
    (hfresh : w.step = stepOrkaCreate.fresh)
    (hpre : env.config.ImagePrecopy = true)
    (hnc : env.config.NoCreateImage = false)
    (hnodel : env.config.NoDeleteVM = false)
    (hlogin : loginReply env w = ⟨some login, none⟩)
    (hlogin200 : login.StatusCode = 200)
    (hcopy : (copyReply env w login.Token).err ≠ none ∨
      ∃ c, copyReply env w login.Token = ⟨some c, none⟩ ∧ c.StatusCode ≠ 200 ∧
        c.Errors ≠ []) :
    (Run env w).1 = .returned .ActionHalt ∧
    (Run env w).2.calls =
      w.calls ++ [loginRequest env.config, imageCopyRequest env.config login.Token] ∧
    (Run env w).2.step.createVMFailed = true ∧
    ((copyReply env w login.Token).err ≠ none → (Run env w).2.step.precopyFailed = true) ∧
    (Cleanup env (Run env w).2).2.calls =
      (Run env w).2.calls ++ [imageDeleteRequest env.config login.Token] := by
  have key : (Run env w).1 = .returned .ActionHalt ∧
      (Run env w).2.calls =
        w.calls ++ [loginRequest env.config, imageCopyRequest env.config login.Token] ∧
      (Run env w).2.step.createVMFailed = true ∧
      ((copyReply env w login.Token).err ≠ none →
        (Run env w).2.step.precopyFailed = true) ∧
      (Run env w).2.step.loginFailed = false ∧
      (Run env w).2.bag "token" = some (.str login.Token) := by
    rw [Run_login_ok env w login hlogin hlogin200]
    unfold copyReply at hcopy ⊢
    unfold Run_precopy
    simp only [hpre, hnc, World.Do, if_true, Bool.false_eq_true, if_false]
    rcases hcopy with h | ⟨c, hc, hs, he⟩
    · cases herr : (env.client (w.calls ++ [loginRequest env.config])
          (imageCopyRequest env.config login.Token)).err with
      | none => exact absurd herr h
      | some e => simp [StateBag.Put, hfresh, stepOrkaCreate.fresh]
    · simp only [hc, ne_eq, hs, not_false_eq_true, if_true]
      cases hE : c.Errors with
      | nil => exact absurd hE he
      | cons m ms => simp [StateBag.Put, hfresh, stepOrkaCreate.fresh]
  refine ⟨key.1, key.2.1, key.2.2.1, key.2.2.2.1, ?_⟩
  rw [Cleanup_createVMFailed env _ login.Token key.2.2.2.2.1 key.2.2.2.2.2 hnodel key.2.2.1]
  simp [hpre]

/-- On a fresh controller with `NoDeleteVM` false, after a `Run` that returned
`ActionContinue`, when the purge and the health-check call are answered with a response,
the health-check response has status 200 or carries an error entry, and its version
parses to `v`: `Cleanup` issues the purge request, then the health-check request, then the
token-revoke request if and only if `v` is at most the threshold 2.1.1. -/
theorem Run_continue_Cleanup (env : Env) (w : World) (login p h : Response) (v : Version)
    (hfresh : w.step = stepOrkaCreate.fresh)
    (hrun : (Run env w).1 = .returned .ActionContinue)
    (hnodel : env.config.NoDeleteVM = false)
    (hlogin : loginReply env w = ⟨some login, none⟩)
    (hp : (env.client (Run env w).2.calls (vmPurgeRequest env.config login.Token)).resp
      = some p)
    (hh : (env.client ((Run env w).2.calls ++ [vmPurgeRequest env.config login.Token])
      (healthCheckRequest env.config)).resp = some h)
    (hhs : h.StatusCode = 200 ∨ h.Errors ≠ [])
    (hv : NewVersion h.Version = some v) :
    (Cleanup env (Run env w).2).2.calls =
      (Run env w).2.calls ++
        [vmPurgeRequest env.config login.Token, healthCheckRequest env.config] ++
        (if v.LessThanOrEqual threshold then [revokeTokenRequest env.config login.Token]
          else []) := by
  obtain ⟨hstep, login1, hl1, _, htok⟩ := Run_continue env w hrun
  have hEq : login1 = login := by
    rw [hlogin] at hl1
    simpa using hl1.symm
  subst hEq
  refine Cleanup_nominal env _ login1.Token p h v ?_ htok hnodel ?_ hp hh hhs hv
  · rw [hstep, hfresh]; rfl
  · rw [hstep, hfresh]; rfl

/-- The version check on the versions named by the specification: 2.1.0 and 2.1.1 are at
most the threshold, 3.0.0 is not. -/
theorem version_threshold_examples :
    (NewVersion "2.1.0").map (fun v => v.LessThanOrEqual threshold) = some true ∧
    (NewVersion "2.1.1").map (fun v => v.LessThanOrEqual threshold) = some true ∧
    (NewVersion "3.0.0").map (fun v => v.LessThanOrEqual threshold) = some false := by
  decide

/-- Scenario A of the specification: everything succeeds and the platform reports
3.0.0.  `Run` continues and publishes the address of the deploy response; `Cleanup`
issues the purge and the health-check request and no token-revoke request. -/
theorem scenario_A :
    (Run allGood World.initial).1 = .returned .ActionContinue ∧
    (Run allGood World.initial).2.bag "ssh_host" = some (.str "10.0.0.5") ∧
    (Run allGood World.initial).2.bag "ssh_port" = some (.int 8822) ∧
    (Cleanup allGood (Run allGood World.initial).2).1 = .returned () ∧
    (Cleanup allGood (Run allGood World.initial).2).2.calls =
      (Run allGood World.initial).2.calls ++
        [vmPurgeRequest plainConfig "tok", healthCheckRequest plainConfig] := by
  decide

/-- Scenario B of the specification: as scenario A with the platform reporting 2.1.0;
`Cleanup` also issues the token-revoke request. -/
theorem scenario_B :
    (Run allGoodOld World.initial).1 = .returned .ActionContinue ∧
    (Cleanup allGoodOld (Run allGoodOld World.initial).2).1 = .returned () ∧
    (Cleanup allGoodOld (Run allGoodOld World.initial).2).2.calls =
      (Run allGoodOld World.initial).2.calls ++
        [vmPurgeRequest plainConfig "tok", healthCheckRequest plainConfig,
          revokeTokenRequest plainConfig "tok"] := by
  decide

/-- A run that returns with `loginFailed` false went through a login answered 200, and
the bag holds the token of that response. -/
theorem Run_returned_logged_in (env : Env) (w : World) (a : StepAction)
    (hret : (Run env w).1 = .returned a)
    (hlf : (Run env w).2.step.loginFailed = false) :
    ∃ login, loginReply env w = ⟨some login, none⟩ ∧ login.StatusCode = 200 ∧
      (Run env w).2.bag "token" = some (.str login.Token) := by
  cases hres : (createOrkaToken env w).1 with
  | panicked why =>
    unfold Run at hret
    split at hret
    · simp at hret
    · rename_i heq; rw [heq] at hres; simp at hres
    · rename_i heq; rw [heq] at hres; simp at hres
  | returned r =>
    obtain ⟨tok, err⟩ := r
    cases err with
    | some e =>
      unfold Run at hlf
      split at hlf
      · rename_i heq; rw [heq] at hres; simp at hres
      · simp at hlf
      · rename_i heq; rw [heq] at hres; simp at hres
    | none =>
      obtain ⟨login, hl, h200, _⟩ := createOrkaToken_ok_inv env w tok hres
      refine ⟨login, hl, h200, ?_⟩
      rw [Run_login_ok env w login hl h200]
      have hf := Run_precopy_forward env login.Token
        { w with
          calls := w.calls ++ [loginRequest env.config]
          bag := w.bag.Put "token" (.str login.Token) }
      rw [hf.token]
      simp [StateBag.Put]

/-! ## Where `precopyFailed` comes from -/

theorem Run_store_step (env : Env) (resp : Response) (w : World) :
    (Run_store env resp w).2.step = w.step := by
  unfold Run_store
  simp only []
  split_ifs <;> rfl

theorem Run_deploy_precopyFailed (env : Env) (token : String) (w : World) :
    (Run_deploy env token w).2.step.precopyFailed = w.step.precopyFailed := by
  unfold Run_deploy
  simp only [World.Do]
  repeat' split
  all_goals first
    | rfl
    | rw [Run_store_step]

theorem Run_create_precopyFailed (env : Env) (token image : String) (w : World) :
    (Run_create env token image w).2.step.precopyFailed = w.step.precopyFailed := by
  unfold Run_create
  simp only [World.Do]
  repeat' split
  all_goals first
    | rfl
    | rw [Run_deploy_precopyFailed]

theorem Run_precopy_precopyFailed (env : Env) (token : String) (w : World)
    (h : (Run_precopy env token w).2.step.precopyFailed = true) :
    w.step.precopyFailed = true ∨
      (env.config.ImagePrecopy = true ∧ env.config.NoCreateImage = false) := by
  unfold Run_precopy at h
  by_cases hp : env.config.ImagePrecopy = true
  · by_cases hn : env.config.NoCreateImage = true
    · left
      simp only [hp, hn, if_true] at h
      rw [Run_create_precopyFailed] at h
      exact h
    · right
      exact ⟨hp, by simpa using hn⟩
  · left
    simp only [hp, if_false, Bool.false_eq_true] at h
    rw [Run_create_precopyFailed] at h
    exact h

/-- `Run` sets `precopyFailed` only in the pre-copy section, which it enters only with
`ImagePrecopy` true and `NoCreateImage` false. -/
theorem Run_precopyFailed_origin (env : Env) (w : World)
    (h : (Run env w).2.step.precopyFailed = true) :
    w.step.precopyFailed = true ∨
      (env.config.ImagePrecopy = true ∧ env.config.NoCreateImage = false) := by
  have hw := createOrkaToken_world env w
  unfold Run at h
  split at h
  · rename_i heq; rw [heq] at hw; simp only at hw; subst hw; exact Or.inl h
  · rename_i heq; rw [heq] at hw; simp only at hw; subst hw; exact Or.inl h
  · rename_i heq; rw [heq] at hw; simp only at hw; subst hw
    have h2 := Run_precopy_precopyFailed env _ _ h
    exact h2

/-! ## The claims -/

/-- C1 (counterexample): pre-copy is configured and succeeds, the VM-configuration call is
answered 500, `NoDeleteVM` is false; `Run` halts and the `Cleanup` that follows issues a
deletion call, the image-delete request. -/
theorem C1_counterexample :
    createRejectedAfterPrecopy.config.NoDeleteVM = false ∧
    loginReply createRejectedAfterPrecopy World.initial = answer 200 [] ∧
    copyReply createRejectedAfterPrecopy World.initial "tok" = answer 200 [] ∧
    createReply createRejectedAfterPrecopy World.initial "tok" = answer 500 ["exists"] ∧
    (Run createRejectedAfterPrecopy World.initial).1 = .returned .ActionHalt ∧
    (Cleanup createRejectedAfterPrecopy
        (Run createRejectedAfterPrecopy World.initial).2).2.calls =
      (Run createRejectedAfterPrecopy World.initial).2.calls ++
        [imageDeleteRequest precopyConfig "tok"] := by
  decide

/-- C1 (amended): on a fresh controller with `NoDeleteVM` false, when the login succeeds,
pre-copy is either not configured (`ImagePrecopy` false) or made and answered 200
(`ImagePrecopy` true, `NoCreateImage` false), and then the VM-configuration call is
answered with a status other than 201, or is answered 201 and the deploy call is answered
with a status other than 200, the error response carrying at least one error entry, `Run`
returns `ActionHalt` and the `Cleanup` that follows issues no purge, no health-check and no
token-revoke request: it issues no request at all when `ImagePrecopy` is false, and the
image-delete request alone after the successful pre-copy. -/
theorem C1_amended (env : Env) (w : World) (login : Response)
    (hfresh : w.step = stepOrkaCreate.fresh)
    (hnodel : env.config.NoDeleteVM = false)
    (hlogin : loginReply env w = ⟨some login, none⟩)
    (hlogin200 : login.StatusCode = 200)
    (hpre : env.config.ImagePrecopy = false ∨
      (env.config.ImagePrecopy = true ∧ env.config.NoCreateImage = false ∧
        ∃ c, copyReply env w login.Token = ⟨some c, none⟩ ∧ c.StatusCode = 200))
    (hfail :
      (∃ r, createReply env w login.Token = ⟨some r, none⟩ ∧ r.StatusCode ≠ 201 ∧
        r.Errors ≠ []) ∨
      (∃ r d, createReply env w login.Token = ⟨some r, none⟩ ∧ r.StatusCode = 201 ∧
        (deployReply env w login.Token).resp = some d ∧ d.StatusCode ≠ 200 ∧
        d.Errors ≠ [])) :
    (Run env w).1 = .returned .ActionHalt ∧
    (env.config.ImagePrecopy = false →
      (Cleanup env (Run env w).2).2.calls = (Run env w).2.calls) ∧
    (env.config.ImagePrecopy = true →
      (Cleanup env (Run env w).2).2.calls =
        (Run env w).2.calls ++ [imageDeleteRequest env.config login.Token]) := by
  have hcopy : precopyIssued env.config = true →
      ∃ c, copyReply env w login.Token = ⟨some c, none⟩ ∧ c.StatusCode = 200 := by
    intro hi
    rcases hpre with hp | ⟨_, _, hc⟩
    · unfold precopyIssued at hi
      rw [hp] at hi
      simp at hi
    · exact hc
  have hrun := Run_login_ok env w login hlogin hlogin200
  have hprec := Run_precopy_ok env login.Token
    { w with
      calls := w.calls ++ [loginRequest env.config]
      bag := w.bag.Put "token" (.str login.Token) } hcopy
  have hfw := Run_precopy_forward env login.Token
    { w with
      calls := w.calls ++ [loginRequest env.config]
      bag := w.bag.Put "token" (.str login.Token) }
  rw [← hrun] at hfw hprec
  have hl : (Run env w).2.step.loginFailed = false := by
    rw [hfw.login, hfresh]; rfl
  have ht : (Run env w).2.bag "token" = some (.str login.Token) := by
    rw [hfw.token]; simp [StateBag.Put]
  have key : (Run env w).1 = .returned .ActionHalt ∧
      (Run env w).2.step.createVMFailed = true := by
    rw [hprec]
    rcases hfail with ⟨r, hr, hs, he⟩ | ⟨r, d, hr, hs, hd, hds, hde⟩
    · have h := Run_create_rejected env login.Token (actualImage env.config)
        { w with
          calls := if precopyIssued env.config then
              w.calls ++ [loginRequest env.config] ++ [imageCopyRequest env.config login.Token]
            else w.calls ++ [loginRequest env.config]
          bag := w.bag.Put "token" (.str login.Token) } r hr hs he
      exact ⟨h.1, h.2.1⟩
    · rw [Run_create_ok env login.Token (actualImage env.config)
        { w with
          calls := if precopyIssued env.config then
              w.calls ++ [loginRequest env.config] ++ [imageCopyRequest env.config login.Token]
            else w.calls ++ [loginRequest env.config]
          bag := w.bag.Put "token" (.str login.Token) } r hr hs]
      have h := Run_deploy_rejected env login.Token
        { w with
          calls := (if precopyIssued env.config then
              w.calls ++ [loginRequest env.config] ++ [imageCopyRequest env.config login.Token]
            else w.calls ++ [loginRequest env.config]) ++
            [vmCreateConfigRequest env.config login.Token (actualImage env.config)]
          bag := w.bag.Put "token" (.str login.Token) } d hd hds hde
      exact ⟨h.1, h.2.1⟩
  have hclean := Cleanup_createVMFailed env _ login.Token hl ht hnodel key.2
  refine ⟨key.1, fun hp => ?_, fun hp => ?_⟩
  · rw [hclean, hp]; simp
  · rw [hclean, hp]; simp

/-- C1 (amended), at a concrete input: no pre-copy, the VM-configuration call answered 500
with an error entry. -/
theorem C1_amended_witness :
    createRejected.config.NoDeleteVM = false ∧
    createRejected.config.ImagePrecopy = false ∧
    loginReply createRejected World.initial = ⟨some (response 200 [] "3.0.0"), none⟩ ∧
    createReply createRejected World.initial "tok" =
      ⟨some (response 500 ["exists"] "3.0.0"), none⟩ ∧
    (Run createRejected World.initial).1 = .returned .ActionHalt ∧
    (Cleanup createRejected (Run createRejected World.initial).2).2.calls =
      (Run createRejected World.initial).2.calls :=
  ⟨by decide, by decide, by decide, by decide,
    (C1_amended createRejected World.initial (response 200 [] "3.0.0") rfl (by decide)
      (by decide) (by decide) (Or.inl (by decide))
      (Or.inl ⟨response 500 ["exists"] "3.0.0", by decide, by decide, by decide⟩)).1,
    (C1_amended createRejected World.initial (response 200 [] "3.0.0") rfl (by decide)
      (by decide) (by decide) (Or.inl (by decide))
      (Or.inl ⟨response 500 ["exists"] "3.0.0", by decide, by decide, by decide⟩)).2.1
      (by decide)⟩

/-- C2 (evaluation at the failing input): the pre-copy call is answered 500 with an error
entry; `Run` halts without issuing the VM-configuration call and sets `createVMFailed`,
but leaves `precopyFailed` false. -/
theorem C2_copy_rejected_leaves_precopyFailed_unset :
    copyReply copyRejected World.initial "tok" = answer 500 ["no space left"] ∧
    (Run copyRejected World.initial).1 = .returned .ActionHalt ∧
    (Run copyRejected World.initial).2.calls =
      [loginRequest precopyConfig, imageCopyRequest precopyConfig "tok"] ∧
    (Run copyRejected World.initial).2.step.createVMFailed = true ∧
    (Run copyRejected World.initial).2.step.precopyFailed = false := by
  decide

/-- C3 (evaluation at the failing input): the VM-configuration call fails with a transport
error; `Run` halts without issuing the deploy call, but leaves `createVMFailed` false. -/
theorem C3_create_refused_leaves_createVMFailed_unset :
    createReply createRefused World.initial "tok" = refused ∧
    (Run createRefused World.initial).1 = .returned .ActionHalt ∧
    (Run createRefused World.initial).2.calls =
      [loginRequest plainConfig, vmCreateConfigRequest plainConfig "tok" "base.img"] ∧
    (Run createRefused World.initial).2.step.createVMFailed = false := by
  decide

/-- C4 (evaluation at the failing input): `Run` returned `ActionContinue`, `NoDeleteVM` is
false, every cleanup request receives a response, and the health check, answered 500
without error entry, reports the parsable version 2.1.0, which is at most 2.1.1; `Cleanup`
issues the purge and the health-check request, then panics on `Errors[0]` and issues no
token-revoke request. -/
theorem C4_health_check_without_errors_skips_revoke :
    (Run healthCheckBare World.initial).1 = .returned .ActionContinue ∧
    healthCheckBare.config.NoDeleteVM = false ∧
    healthCheckBare.client
        ((Run healthCheckBare World.initial).2.calls ++ [vmPurgeRequest plainConfig "tok"])
        (healthCheckRequest plainConfig) = answerVersion 500 [] "2.1.0" ∧
    (NewVersion "2.1.0").map (fun v => v.LessThanOrEqual threshold) = some true ∧
    (Cleanup healthCheckBare (Run healthCheckBare World.initial).2).1 =
      .panicked .indexOutOfRange ∧
    (Cleanup healthCheckBare (Run healthCheckBare World.initial).2).2.calls =
      (Run healthCheckBare World.initial).2.calls ++
        [vmPurgeRequest plainConfig "tok", healthCheckRequest plainConfig] := by
  decide

/-- C5 (evaluation at the failing input): pre-copy is configured, the login succeeds and
the pre-copy call is answered 500 without error entry; `Run` does not return `ActionHalt`
but panics on `Errors[0]`, with no flag set. -/
theorem C5_copy_rejected_without_errors_panics :
    copyRejectedBare.config.ImagePrecopy = true ∧
    copyRejectedBare.config.NoCreateImage = false ∧
    copyRejectedBare.config.NoDeleteVM = false ∧
    loginReply copyRejectedBare World.initial = answer 200 [] ∧
    copyReply copyRejectedBare World.initial "tok" = answer 500 [] ∧
    (Run copyRejectedBare World.initial).1 = .panicked .indexOutOfRange ∧
    (Run copyRejectedBare World.initial).2.step = stepOrkaCreate.fresh := by
  decide

/-- C6 (evaluation at the failing input): the login call is answered 401 without error
entry; `Run` does not return `ActionHalt` but panics on `Errors[0]`, and `loginFailed`
stays false. -/
theorem C6_login_rejected_without_errors_panics :
    loginReply loginRejectedBare World.initial = answer 401 [] ∧
    (Run loginRejectedBare World.initial).1 = .panicked .indexOutOfRange ∧
    (Run loginRejectedBare World.initial).2.step.loginFailed = false := by
  decide

/-- C7: with `NoDeleteVM` true, whatever `Run` did (on any configuration otherwise, any
client and from any world), the `Cleanup` that follows issues no request at all, hence no
image-delete, no purge and no token-revoke request. -/
theorem C7_noDelete_cleanup_issues_nothing (env : Env) (h : env.config.NoDeleteVM = true)
    (w : World) :
    (Cleanup env (Run env w).2).2.calls = (Run env w).2.calls := by
  rw [Cleanup_noDelete env h]

/-- C7, at a concrete input: everything succeeds and `NoDeleteVM` is set. -/
theorem C7_noDelete_witness :
    allGoodKeep.config.NoDeleteVM = true ∧
    (Run allGoodKeep World.initial).1 = .returned .ActionContinue ∧
    (Cleanup allGoodKeep (Run allGoodKeep World.initial).2).2.calls =
      (Run allGoodKeep World.initial).2.calls :=
  ⟨by decide, by decide, C7_noDelete_cleanup_issues_nothing allGoodKeep (by decide) World.initial⟩

/-- C8: starting from a freshly constructed controller, after `Run` and after the
`Cleanup` that follows, `precopyFailed` true implies `createVMFailed` true; and neither
`Run` nor `Cleanup`, from any world, takes a flag from true to false. -/
theorem C8_flags_invariant_and_monotone (env : Env) (bag : StateBag) (calls : List Request) :
    ((Run env ⟨stepOrkaCreate.fresh, bag, calls⟩).2.step.precopyFailed = true →
      (Run env ⟨stepOrkaCreate.fresh, bag, calls⟩).2.step.createVMFailed = true) ∧
    ((Cleanup env (Run env ⟨stepOrkaCreate.fresh, bag, calls⟩).2).2.step.precopyFailed = true →
      (Cleanup env (Run env ⟨stepOrkaCreate.fresh, bag, calls⟩).2).2.step.createVMFailed
        = true) ∧
    (∀ w : World,
      (w.step.loginFailed = true → (Run env w).2.step.loginFailed = true) ∧
      (w.step.createVMFailed = true → (Run env w).2.step.createVMFailed = true) ∧
      (w.step.precopyFailed = true → (Run env w).2.step.precopyFailed = true)) ∧
    (∀ w : World,
      (w.step.loginFailed = true → (Cleanup env w).2.step.loginFailed = true) ∧
      (w.step.createVMFailed = true → (Cleanup env w).2.step.createVMFailed = true) ∧
      (w.step.precopyFailed = true → (Cleanup env w).2.step.precopyFailed = true)) := by
  have hinv : FlagsInv (Run env ⟨stepOrkaCreate.fresh, bag, calls⟩).2.step :=
    (Run_flags env ⟨stepOrkaCreate.fresh, bag, calls⟩).2 (by simp [FlagsInv, stepOrkaCreate.fresh])
  refine ⟨hinv, ?_, fun w => (Run_flags env w).1, fun w => ?_⟩
  · rw [Cleanup_step]
    exact hinv
  · rw [Cleanup_step]
    exact ⟨id, id, id⟩

/-- C8, at a concrete input: the pre-copy call fails with a transport error, and both
flags are set after `Run` and after `Cleanup`. -/
theorem C8_flags_witness :
    (Run copyRefused World.initial).2.step.precopyFailed = true ∧
    (Run copyRefused World.initial).2.step.createVMFailed = true ∧
    (Cleanup copyRefused (Run copyRefused World.initial).2).2.step.createVMFailed = true :=
  ⟨by decide,
    (C8_flags_invariant_and_monotone copyRefused StateBag.empty []).1 (by decide),
    (C8_flags_invariant_and_monotone copyRefused StateBag.empty []).2.1 (by decide)⟩

/-- C9 (counterexample): pre-copy is configured and succeeds and the deploy call is
answered 500; in the `Cleanup` that follows `loginFailed` is false, `NoDeleteVM` is false,
`createVMFailed` is true and `precopyFailed` is false, and yet the image-delete request is
issued. -/
theorem C9_counterexample :
    (Run deployRejectedAfterPrecopy World.initial).2.step.loginFailed = false ∧
    deployRejectedAfterPrecopy.config.NoDeleteVM = false ∧
    (Run deployRejectedAfterPrecopy World.initial).2.step.createVMFailed = true ∧
    (Run deployRejectedAfterPrecopy World.initial).2.step.precopyFailed = false ∧
    (Cleanup deployRejectedAfterPrecopy
        (Run deployRejectedAfterPrecopy World.initial).2).2.calls =
      (Run deployRejectedAfterPrecopy World.initial).2.calls ++
        [imageDeleteRequest precopyConfig "tok"] := by
  decide

/-- C9 (amended): in the `Cleanup` that follows a `Run` from a fresh controller, with
`loginFailed` false, `NoDeleteVM` false and `createVMFailed` true: the image-delete request
is issued, and is the only request issued, whenever `precopyFailed` is true, and also
whenever the pre-copy call had been made (`ImagePrecopy` true and `NoCreateImage` false)
with `precopyFailed` left false; when `ImagePrecopy` is false `Cleanup` issues no HTTP
call. -/
theorem C9_amended (env : Env) (w : World) (a : StepAction)
    (hfresh : w.step = stepOrkaCreate.fresh)
    (hret : (Run env w).1 = .returned a)
    (hlogin : (Run env w).2.step.loginFailed = false)
    (hnodel : env.config.NoDeleteVM = false)
    (hfail : (Run env w).2.step.createVMFailed = true) :
    ∃ login, loginReply env w = ⟨some login, none⟩ ∧
      ((Run env w).2.step.precopyFailed = true →
        (Cleanup env (Run env w).2).2.calls =
          (Run env w).2.calls ++ [imageDeleteRequest env.config login.Token]) ∧
      (env.config.ImagePrecopy = true ∧ env.config.NoCreateImage = false →
        (Cleanup env (Run env w).2).2.calls =
          (Run env w).2.calls ++ [imageDeleteRequest env.config login.Token]) ∧
      (env.config.ImagePrecopy = false →
        (Cleanup env (Run env w).2).2.calls = (Run env w).2.calls) := by
  obtain ⟨login, hl, _, htok⟩ := Run_returned_logged_in env w a hret hlogin
  have hclean := Cleanup_createVMFailed env _ login.Token hlogin htok hnodel hfail
  have hyes : env.config.ImagePrecopy = true →
      (Cleanup env (Run env w).2).2.calls =
        (Run env w).2.calls ++ [imageDeleteRequest env.config login.Token] := by
    intro hp
    rw [hclean, hp]; simp
  refine ⟨login, hl, fun hpf => ?_, fun hp => hyes hp.1, fun hp => ?_⟩
  · rcases Run_precopyFailed_origin env w hpf with h | h
    · rw [hfresh] at h
      exact absurd h (by decide)
    · exact hyes h.1
  · rw [hclean, hp]; simp

/-- C9 (amended), at a concrete input: pre-copy is configured and the copy call fails with
a transport error, so that `precopyFailed` is true. -/
theorem C9_amended_witness :
    (Run copyRefused World.initial).1 = .returned .ActionHalt ∧
    (Run copyRefused World.initial).2.step.loginFailed = false ∧
    copyRefused.config.NoDeleteVM = false ∧
    (Run copyRefused World.initial).2.step.createVMFailed = true ∧
    (Run copyRefused World.initial).2.step.precopyFailed = true ∧
    copyRefused.config.NoCreateImage = false ∧
    ∃ login, loginReply copyRefused World.initial = ⟨some login, none⟩ ∧
      ((Run copyRefused World.initial).2.step.precopyFailed = true →
        (Cleanup copyRefused (Run copyRefused World.initial).2).2.calls =
          (Run copyRefused World.initial).2.calls ++
            [imageDeleteRequest copyRefused.config login.Token]) ∧
      (copyRefused.config.ImagePrecopy = true ∧ copyRefused.config.NoCreateImage = false →
        (Cleanup copyRefused (Run copyRefused World.initial).2).2.calls =
          (Run copyRefused World.initial).2.calls ++
            [imageDeleteRequest copyRefused.config login.Token]) ∧
      (copyRefused.config.ImagePrecopy = false →
        (Cleanup copyRefused (Run copyRefused World.initial).2).2.calls =
          (Run copyRefused World.initial).2.calls) :=
  ⟨by decide, by decide, by decide, by decide, by decide, by decide,
    C9_amended copyRefused World.initial .ActionHalt rfl (by decide) (by decide) (by decide)
      (by decide)⟩

/-- C10 (evaluation at the failing input): the VM-configuration call fails with a
transport error; `Run` returns `ActionHalt` and the bag, empty before, holds no `error`. -/
theorem C10_create_refused_records_no_error :
    World.initial.bag "error" = none ∧
    createReply createRefused World.initial "tok" = refused ∧
    (Run createRefused World.initial).1 = .returned .ActionHalt ∧
    (Run createRefused World.initial).2.bag "error" = none := by
  decide

/-! ## From the deploy response to the published address -/

/-- A deploy call answered with a response of status 200 hands over to the end of `Run`;
the world handed over differs from the one before the call by the logged request and, on
a transport error reported alongside the response, by the recorded error. -/
theorem Run_deploy_ok (env : Env) (token : String) (w : World) (d : Response)
    (h : (env.client w.calls (vmDeployRequest env.config token)).resp = some d)
    (hs : d.StatusCode = 200) :
    ∃ w1 : World, Run_deploy env token w = Run_store env d w1 ∧
      w1.calls = w.calls ++ [vmDeployRequest env.config token] ∧
      (∀ k, k ≠ "error" → w1.bag k = w.bag k) ∧
      ((env.client w.calls (vmDeployRequest env.config token)).err = none →
        w1.bag = w.bag) := by
  unfold Run_deploy
  simp only [World.Do, h, hs, ne_eq, not_true_eq_false, if_false]
  cases herr : (env.client w.calls (vmDeployRequest env.config token)).err with
  | none => exact ⟨_, rfl, rfl, fun _ _ => rfl, fun _ => rfl⟩
  | some e =>
    refine ⟨_, rfl, rfl, fun k hk => ?_, fun hn => by simp at hn⟩
    simp [StateBag.Put, hk]

/-- The end of `Run` when IP mapping is enabled and the map yields no host, or the
empty string, for the address of the deploy response: `ActionHalt`, an error recorded,
neither `ssh_host` nor `ssh_port` published. -/
theorem Run_store_unmapped (env : Env) (d : Response) (w : World)
    (hmap : env.config.EnableOrkaNodeIPMapping = true)
    (hkey : (env.config.OrkaNodeIPMap.lookup d.IP).getD "" = "") :
    (Run_store env d w).1 = .returned .ActionHalt ∧
    (∃ e, (Run_store env d w).2.bag "error" = some (.err e)) ∧
    (Run_store env d w).2.bag "ssh_host" = w.bag "ssh_host" ∧
    (Run_store env d w).2.bag "ssh_port" = w.bag "ssh_port" := by
  unfold Run_store
  simp [hmap, hkey, StateBag.Put]

/-- The end of `Run` when the host resolves to `host`: `ActionContinue`, with `vmid`,
`ssh_host` and `ssh_port` published, the port being what `strconv.Atoi` returns, and no
error recorded. -/
theorem Run_store_resolved (env : Env) (d : Response) (w : World) (host : String)
    (hhost : (env.config.EnableOrkaNodeIPMapping = false ∧ host = d.IP) ∨
      (env.config.EnableOrkaNodeIPMapping = true ∧
        env.config.OrkaNodeIPMap.lookup d.IP = some host ∧ host ≠ "")) :
    (Run_store env d w).1 = .returned .ActionContinue ∧
    (Run_store env d w).2.bag "vmid" = some (.str d.VMId) ∧
    (Run_store env d w).2.bag "ssh_host" = some (.str host) ∧
    (Run_store env d w).2.bag "ssh_port" = some (.int (Atoi d.SSHPort).1) ∧
    (Run_store env d w).2.bag "error" = w.bag "error" := by
  unfold Run_store
  rcases hhost with ⟨hm, hh⟩ | ⟨hm, hl, hne⟩
  · simp [hm, hh, StateBag.Put]
  · simp [hm, hl, hne, StateBag.Put]

/-- When the login succeeds, the pre-copy call is not issued or is answered 200, the
VM-configuration call is answered 201 and the deploy call is answered with a response of
status 200, `Run` reaches its end with a bag that differs from the initial one in `token`
and, on a transport error reported alongside the deploy response, `error`. -/
theorem Run_reaches_store (env : Env) (w : World) (login create deploy : Response)
    (hlogin : loginReply env w = ⟨some login, none⟩)
    (hlogin200 : login.StatusCode = 200)
    (hcopy : precopyIssued env.config = true →
      ∃ c, copyReply env w login.Token = ⟨some c, none⟩ ∧ c.StatusCode = 200)
    (hcreate : createReply env w login.Token = ⟨some create, none⟩)
    (hcreate201 : create.StatusCode = 201)
    (hdeploy : (deployReply env w login.Token).resp = some deploy)
    (hdeploy200 : deploy.StatusCode = 200) :
    ∃ w1 : World, Run env w = Run_store env deploy w1 ∧
      (∀ k, k ≠ "token" → k ≠ "error" → w1.bag k = w.bag k) ∧
      ((deployReply env w login.Token).err = none → w1.bag "error" = w.bag "error") := by
  rw [Run_login_ok env w login hlogin hlogin200]
  rw [Run_precopy_ok env login.Token
    { w with
      calls := w.calls ++ [loginRequest env.config]
      bag := w.bag.Put "token" (.str login.Token) } hcopy]
  rw [Run_create_ok env login.Token (actualImage env.config)
    { w with
      calls := if precopyIssued env.config then
          w.calls ++ [loginRequest env.config] ++ [imageCopyRequest env.config login.Token]
        else w.calls ++ [loginRequest env.config]
      bag := w.bag.Put "token" (.str login.Token) } create hcreate hcreate201]
  obtain ⟨w1, h1, _, hbag, herr⟩ := Run_deploy_ok env login.Token
    { w with
      calls := (if precopyIssued env.config then
          w.calls ++ [loginRequest env.config] ++ [imageCopyRequest env.config login.Token]
        else w.calls ++ [loginRequest env.config]) ++
        [vmCreateConfigRequest env.config login.Token (actualImage env.config)]
      bag := w.bag.Put "token" (.str login.Token) } deploy hdeploy hdeploy200
  refine ⟨w1, h1, fun k hk hk2 => ?_, fun hn => ?_⟩
  · rw [hbag k hk2]
    simp [StateBag.Put, hk]
  · rw [herr hn]
    simp [StateBag.Put]

theorem maxUint64_eq : maxUint64 = 18446744073709551615 := by decide

theorem digitPrefixValueFrom_ge (cs : List Char) (n : Nat) :
    n ≤ digitPrefixValueFrom cs n := by
  induction cs generalizing n with
  | nil => exact le_refl _
  | cons c cs ih =>
    unfold digitPrefixValueFrom
    split
    · exact le_trans (by omega) (ih _)
    · exact le_refl _

/-- The loop of `ParseUint` in terms of the digits it reads: a range error as soon as
the digits before the first other character go beyond 64 bits, else a syntax error when
there is such a character, else the value. -/
theorem ParseUintFrom_eq (cs : List Char) (n : Nat) (hn : n ≤ maxUint64) :
    ParseUintFrom cs n =
      if maxUint64 < digitPrefixValueFrom cs n then (maxUint64, some .ErrRange)
      else if cs.all Char.isDigit then (digitPrefixValueFrom cs n, none)
      else (0, some .ErrSyntax) := by
  have hmax := maxUint64_eq
  induction cs generalizing n with
  | nil =>
    have h : ¬ maxUint64 < n := by omega
    simp [ParseUintFrom, digitPrefixValueFrom, h]
  | cons c cs ih =>
    by_cases hc : c.isDigit = true
    · have hge := digitPrefixValueFrom_ge cs (n * 10 + (c.toNat - 48))
      unfold ParseUintFrom digitPrefixValueFrom
      simp only [hc, if_true, List.all_cons, Bool.true_and]
      by_cases h1 : maxUint64 / 10 + 1 ≤ n
      · have h2 : maxUint64 < digitPrefixValueFrom cs (n * 10 + (c.toNat - 48)) := by omega
        simp only [h1, h2, if_true]
      · by_cases h3 : maxUint64 < n * 10 + (c.toNat - 48)
        · have h2 : maxUint64 < digitPrefixValueFrom cs (n * 10 + (c.toNat - 48)) := by omega
          simp only [h1, h3, h2, if_true, if_false]
        · simp only [h1, h3, if_false]
          exact ih _ (by omega)
    · have h : ¬ maxUint64 < n := by omega
      unfold ParseUintFrom digitPrefixValueFrom
      simp [hc, h]

theorem parseDigitsFrom_eq_none (cs : List Char) (n : Nat) :
    parseDigitsFrom cs n = none ↔ cs.all Char.isDigit = false := by
  induction cs generalizing n with
  | nil => simp [parseDigitsFrom]
  | cons c cs ih =>
    unfold parseDigitsFrom
    by_cases hc : c.isDigit = true
    · simp [hc, ih]
    · simp [hc]

theorem parseDigitsFrom_eq_some (cs : List Char) (n m : Nat)
    (h : parseDigitsFrom cs n = some m) :
    cs.all Char.isDigit = true ∧ digitPrefixValueFrom cs n = m := by
  induction cs generalizing n with
  | nil => simpa [parseDigitsFrom, digitPrefixValueFrom] using h
  | cons c cs ih =>
    unfold parseDigitsFrom at h
    by_cases hc : c.isDigit = true
    · simp only [hc, if_true] at h
      have := ih _ h
      unfold digitPrefixValueFrom
      simp [hc, this.1, this.2]
    · simp [hc] at h

/-- Reading of `strconv.Atoi` on a string that is not an optionally signed decimal number:
an error is returned with the value 0, unless the digits before the first other character
already go beyond 64 bits, in which case the value is the `int64` bound on the side of the
sign. -/
theorem Atoi_not_decimal (s : String) (h : parseDigits (unsignedPart s) = none) :
    (Atoi s).2 = false ∧
    (digitPrefixValue (unsignedPart s) < 2 ^ 64 → (Atoi s).1 = 0) ∧
    (2 ^ 64 ≤ digitPrefixValue (unsignedPart s) →
      (Atoi s).1 = if s.data.head? = some '-' then -(2 ^ 63 : Int) else (2 ^ 63 - 1 : Int)) := by
  have hmax := maxUint64_eq
  unfold Atoi ParseInt
  by_cases hs : s.data = []
  · have hu : unsignedPart s = [] := by simp [unsignedPart, hs]
    simp [hs, hu, digitPrefixValue, digitPrefixValueFrom]
  · simp only [hs, if_false]
    cases hu : unsignedPart s with
    | nil => simp [ParseUint, digitPrefixValue, digitPrefixValueFrom]
    | cons c cs =>
      rw [hu] at h
      have hall : (c :: cs).all Char.isDigit = false := by
        have := (parseDigitsFrom_eq_none (c :: cs) 0).1 (by simpa [parseDigits] using h)
        exact this
      have hP := ParseUintFrom_eq (c :: cs) 0 (by omega)
      simp only [hall] at hP
      unfold ParseUint digitPrefixValue
      simp only [hP]
      by_cases hov : maxUint64 < digitPrefixValueFrom (c :: cs) 0
      · simp only [hov, if_true]
        by_cases hneg : s.data.head? = some '-'
        · simp [hneg, hmax]
          omega
        · simp [hneg, hmax]
          omega
      · simp only [hov, if_false, Bool.false_eq_true]
        simp
        omega

/-- Reading of `strconv.Atoi` on a non-empty string of digits whose value fits 63 bits:
that value, without error. -/
theorem Atoi_digits (s : String) (n : Nat) (h : parseDigits s.data = some n)
    (hn : n < 2 ^ 63) : Atoi s = ((n : Int), true) := by
  have hmax := maxUint64_eq
  cases hd : s.data with
  | nil => rw [hd] at h; simp [parseDigits] at h
  | cons c cs =>
    rw [hd] at h
    have hsome : parseDigitsFrom (c :: cs) 0 = some n := by simpa [parseDigits] using h
    obtain ⟨hall, hval⟩ := parseDigitsFrom_eq_some (c :: cs) 0 n hsome
    have hc : c.isDigit = true := by
      simp only [List.all_cons, Bool.and_eq_true] at hall
      exact hall.1
    have h1 : c ≠ '-' := by
      rintro rfl
      exact absurd hc (by decide)
    have h2 : c ≠ '+' := by
      rintro rfl
      exact absurd hc (by decide)
    have hu : unsignedPart s = c :: cs := by
      unfold unsignedPart
      rw [hd]
      split
      · rename_i heq
        simp only [List.cons.injEq] at heq
        exact absurd heq.1 h1
      · rename_i heq
        simp only [List.cons.injEq] at heq
        exact absurd heq.1 h2
      · rfl
    have hP := ParseUintFrom_eq (c :: cs) 0 (by omega)
    rw [hval, hall] at hP
    have hov : ¬ maxUint64 < n := by omega
    simp only [hov, if_false, if_true] at hP
    have hlt : ¬ (9223372036854775808 ≤ n) := by omega
    unfold Atoi ParseInt
    simp [hd, hu, ParseUint, hP, h1, hlt]

/-! ## The requests `Run` issues -/

theorem Run_store_calls (env : Env) (d : Response) (w : World) :
    (Run_store env d w).2.calls = w.calls := by
  unfold Run_store
  simp only []
  split_ifs <;> rfl

theorem Run_deploy_calls (env : Env) (token : String) (w : World) :
    (Run_deploy env token w).2.calls = w.calls ++ [vmDeployRequest env.config token] := by
  unfold Run_deploy
  simp only [World.Do]
  repeat' split
  all_goals first
    | rfl
    | rw [Run_store_calls]

theorem Run_create_calls (env : Env) (token image : String) (w : World) :
    (Run_create env token image w).2.calls =
        w.calls ++ [vmCreateConfigRequest env.config token image] ∨
    (Run_create env token image w).2.calls =
        w.calls ++ [vmCreateConfigRequest env.config token image,
          vmDeployRequest env.config token] := by
  unfold Run_create
  simp only [World.Do]
  repeat' split
  all_goals first
    | exact Or.inl rfl
    | (right; rw [Run_deploy_calls]; simp)

/-- The requests the pre-copy section and what follows it log: either the pre-copy
request alone, when it is configured (and then fails), or, the pre-copy call being
answered 200 when it is issued, the requests up to the VM-configuration request naming
`actualImage`, possibly followed by the deploy request. -/
theorem Run_precopy_calls (env : Env) (token : String) (w : World) :
    (precopyIssued env.config = true ∧
      (Run_precopy env token w).2.calls = w.calls ++ [imageCopyRequest env.config token]) ∨
    ((precopyIssued env.config = true →
        ∃ c, env.client w.calls (imageCopyRequest env.config token) = ⟨some c, none⟩ ∧
          c.StatusCode = 200) ∧
      ((Run_precopy env token w).2.calls =
          (if precopyIssued env.config then w.calls ++ [imageCopyRequest env.config token]
            else w.calls) ++
            [vmCreateConfigRequest env.config token (actualImage env.config)] ∨
       (Run_precopy env token w).2.calls =
          (if precopyIssued env.config then w.calls ++ [imageCopyRequest env.config token]
            else w.calls) ++
            [vmCreateConfigRequest env.config token (actualImage env.config),
              vmDeployRequest env.config token])) := by
  by_cases hp : precopyIssued env.config = true
  · by_cases hc : ∃ c, env.client w.calls (imageCopyRequest env.config token) = ⟨some c, none⟩ ∧
        c.StatusCode = 200
    · right
      refine ⟨fun _ => hc, ?_⟩
      rw [Run_precopy_ok env token w (fun _ => hc)]
      exact Run_create_calls env token _ _
    · left
      refine ⟨hp, ?_⟩
      unfold precopyIssued at hp
      simp only [Bool.and_eq_true, Bool.not_eq_true', ] at hp
      unfold Run_precopy
      simp only [hp.1, hp.2, World.Do, if_true, Bool.false_eq_true, if_false]
      generalize hr : env.client w.calls (imageCopyRequest env.config token) = reply at hc
      obtain ⟨resp, err⟩ := reply
      cases err with
      | some e => rfl
      | none =>
        cases resp with
        | none => rfl
        | some r =>
          by_cases hs : r.StatusCode = 200
          · exact absurd ⟨r, rfl, hs⟩ hc
          · simp only [ne_eq, hs, not_false_eq_true, if_true]
            split <;> rfl
  · right
    refine ⟨fun h => absurd h hp, ?_⟩
    rw [Run_precopy_ok env token w (fun h => absurd h hp)]
    exact Run_create_calls env token _ _

/-- The requests `Run` logs: the login request alone, or, the login being answered 200,
what the pre-copy section and its sequel log. -/
theorem Run_calls (env : Env) (w : World) :
    (Run env w).2.calls = w.calls ++ [loginRequest env.config] ∨
    ∃ login, loginReply env w = ⟨some login, none⟩ ∧ login.StatusCode = 200 ∧
      ((precopyIssued env.config = true ∧
        (Run env w).2.calls =
          w.calls ++ [loginRequest env.config, imageCopyRequest env.config login.Token]) ∨
      ((precopyIssued env.config = true →
          ∃ c, copyReply env w login.Token = ⟨some c, none⟩ ∧ c.StatusCode = 200) ∧
        ((Run env w).2.calls =
            callsBeforeCreate env w login.Token ++
              [vmCreateConfigRequest env.config login.Token (actualImage env.config)] ∨
         (Run env w).2.calls =
            callsBeforeCreate env w login.Token ++
              [vmCreateConfigRequest env.config login.Token (actualImage env.config),
                vmDeployRequest env.config login.Token]))) := by
  have hw := createOrkaToken_world env w
  cases hres : (createOrkaToken env w).1 with
  | panicked why =>
    left
    unfold Run
    split
    · rename_i heq; rw [heq] at hw; simp only at hw; subst hw; rfl
    · rename_i heq; rw [heq] at hres; simp at hres
    · rename_i heq; rw [heq] at hres; simp at hres
  | returned a =>
    obtain ⟨tok, err⟩ := a
    cases err with
    | some e =>
      left
      unfold Run
      split
      · rename_i heq; rw [heq] at hres; simp at hres
      · rename_i heq; rw [heq] at hw; simp only at hw; subst hw; rfl
      · rename_i heq; rw [heq] at hres; simp at hres
    | none =>
      right
      obtain ⟨login, hl, h200, htok⟩ := createOrkaToken_ok_inv env w tok hres
      refine ⟨login, hl, h200, ?_⟩
      rw [Run_login_ok env w login hl h200]
      have h := Run_precopy_calls env login.Token
        { w with
          calls := w.calls ++ [loginRequest env.config]
          bag := w.bag.Put "token" (.str login.Token) }
      unfold copyReply callsBeforeCreate
      rcases h with ⟨hp, hc⟩ | ⟨hc, h⟩
      · left
        exact ⟨hp, by rw [hc]; simp⟩
      · right
        refine ⟨hc, ?_⟩
        by_cases hp : precopyIssued env.config = true
        · simpa [hp] using h
        · simpa [hp] using h

/-! ## The requests `Cleanup` issues -/

theorem Cleanup_healthCheck_issued (env : Env) (token : String) (w : World) :
    (Cleanup_healthCheck env token w).2.calls = w.calls ++ [healthCheckRequest env.config] ∨
    (Cleanup_healthCheck env token w).2.calls =
      w.calls ++ [healthCheckRequest env.config, revokeTokenRequest env.config token] := by
  unfold Cleanup_healthCheck
  simp only [World.Do]
  repeat' split
  all_goals first
    | exact Or.inl rfl
    | (right; rw [Cleanup_revoke_calls]; simp)

theorem Cleanup_purge_issued (env : Env) (token : String) (w : World) :
    (Cleanup_purge env token w).2.calls = w.calls ++ [vmPurgeRequest env.config token] ∨
    (Cleanup_purge env token w).2.calls =
      w.calls ++ [vmPurgeRequest env.config token, healthCheckRequest env.config] ∨
    (Cleanup_purge env token w).2.calls =
      w.calls ++ [vmPurgeRequest env.config token, healthCheckRequest env.config,
        revokeTokenRequest env.config token] := by
  have key : ∀ w1 : World, w1.calls = w.calls ++ [vmPurgeRequest env.config token] →
      ((Cleanup_healthCheck env token w1).2.calls =
          w.calls ++ [vmPurgeRequest env.config token] ∨
        (Cleanup_healthCheck env token w1).2.calls =
          w.calls ++ [vmPurgeRequest env.config token, healthCheckRequest env.config] ∨
        (Cleanup_healthCheck env token w1).2.calls =
          w.calls ++ [vmPurgeRequest env.config token, healthCheckRequest env.config,
            revokeTokenRequest env.config token]) := by
    intro w1 h1
    rcases Cleanup_healthCheck_issued env token w1 with h | h
    · right; left; rw [h, h1]; simp
    · right; right; rw [h, h1]; simp
  unfold Cleanup_purge
  simp only [World.Do]
  repeat' split
  all_goals first
    | exact Or.inl rfl
    | exact key _ rfl

/-- The requests `Cleanup` logs when the bag holds the token: none, the image-delete
request, or the purge request possibly followed by the health-check request and the
token-revoke request. -/
theorem Cleanup_issued (env : Env) (w : World) (token : String)
    (htok : w.bag "token" = some (.str token)) :
    ∃ l, (Cleanup env w).2.calls = w.calls ++ l ∧
      ∀ r ∈ l, r ∈ [imageDeleteRequest env.config token, vmPurgeRequest env.config token,
        healthCheckRequest env.config, revokeTokenRequest env.config token] := by
  have hd := precopyImageDelete_calls env w token htok
  have hp := Cleanup_purge_issued env token w
  unfold Cleanup
  simp only [StateBag.Get, htok]
  repeat' split
  all_goals first
    | (rename_i heq
       rw [heq] at hd
       exact ⟨[imageDeleteRequest env.config token], hd, fun r hr => by simp_all⟩)
    | (rcases hp with h | h | h
       · exact ⟨_, h, fun r hr => by simp_all⟩
       · exact ⟨_, h, fun r hr => by
           simp only [List.mem_cons, List.mem_singleton, List.not_mem_nil, or_false] at hr ⊢
           tauto⟩
       · exact ⟨_, h, fun r hr => by
           simp only [List.mem_cons, List.mem_singleton, List.not_mem_nil, or_false] at hr ⊢
           tauto⟩)
    | (refine ⟨[], ?_, ?_⟩ <;> simp)

/-- The sections of `Cleanup` after the token lookup never panic on a type assertion. -/
theorem Cleanup_revoke_no_assert (env : Env) (token : String) (w : World) :
    (Cleanup_revoke env token w).1 ≠ .panicked .typeAssertion := by
  unfold Cleanup_revoke
  simp only [World.Do]
  repeat' split
  all_goals simp

theorem Cleanup_healthCheck_no_assert (env : Env) (token : String) (w : World) :
    (Cleanup_healthCheck env token w).1 ≠ .panicked .typeAssertion := by
  unfold Cleanup_healthCheck
  simp only [World.Do]
  repeat' split
  all_goals first
    | exact Cleanup_revoke_no_assert env token _
    | simp

theorem Cleanup_purge_no_assert (env : Env) (token : String) (w : World) :
    (Cleanup_purge env token w).1 ≠ .panicked .typeAssertion := by
  unfold Cleanup_purge
  simp only [World.Do]
  repeat' split
  all_goals first
    | exact Cleanup_healthCheck_no_assert env token _
    | simp

theorem precopyImageDelete_no_assert (env : Env) (w : World) (token : String)
    (htok : w.bag "token" = some (.str token)) :
    (precopyImageDelete env w).1 ≠ .panicked .typeAssertion := by
  unfold precopyImageDelete
  simp only [World.Do, StateBag.Get, htok]
  repeat' split
  all_goals simp

/-- When the bag holds a string `token`, `Cleanup` does not panic on a token lookup. -/
theorem Cleanup_lookup_defined (env : Env) (w : World) (token : String)
    (htok : w.bag "token" = some (.str token)) :
    (Cleanup env w).1 ≠ .panicked .typeAssertion := by
  have hd := precopyImageDelete_no_assert env w token htok
  unfold Cleanup
  simp only [StateBag.Get, htok]
  repeat' split
  all_goals first
    | exact Cleanup_purge_no_assert env token _
    | (rename_i heq; rw [heq] at hd; simp only [ne_eq, Exit.panicked.injEq] at hd ⊢; exact hd)
    | simp

/-! ## Telling the requests apart -/

/-- Two URLs under the same endpoint are equal only when their paths are. -/
theorem url_path_inj (e a b : String) (h : e ++ "/" ++ a = e ++ "/" ++ b) : a = b := by
  have h1 := congrArg String.data h
  simp only [String.data_append, List.append_assoc] at h1
  exact String.ext (List.append_cancel_left (List.append_cancel_left h1))

theorem loginRequest_not_create (config : Config) : ¬ isCreateCall config (loginRequest config) :=
  fun h => absurd (url_path_inj _ _ _ h.2) (by decide)

theorem imageCopyRequest_not_create (config : Config) (token : String) :
    ¬ isCreateCall config (imageCopyRequest config token) :=
  fun h => absurd (url_path_inj _ _ _ h.2) (by decide)

theorem vmDeployRequest_not_create (config : Config) (token : String) :
    ¬ isCreateCall config (vmDeployRequest config token) :=
  fun h => absurd (url_path_inj _ _ _ h.2) (by decide)

theorem loginRequest_not_copy (config : Config) : ¬ isCopyCall config (loginRequest config) :=
  fun h => absurd (url_path_inj _ _ _ h.2) (by decide)

theorem vmCreateConfigRequest_not_copy (config : Config) (token image : String) :
    ¬ isCopyCall config (vmCreateConfigRequest config token image) :=
  fun h => absurd (url_path_inj _ _ _ h.2) (by decide)

theorem vmDeployRequest_not_copy (config : Config) (token : String) :
    ¬ isCopyCall config (vmDeployRequest config token) :=
  fun h => absurd (url_path_inj _ _ _ h.2) (by decide)

theorem imageCopyRequest_isCopyCall (config : Config) (token : String) :
    isCopyCall config (imageCopyRequest config token) := ⟨rfl, rfl⟩

/-- A deploy call answered with a response whose status is not 200 and that carries at
least one error entry, after a successful login, pre-copy (when issued) and
VM-configuration call: `Run` returns `ActionHalt` with `createVMFailed` set and an error
recorded, and publishes none of `vmid`, `ssh_host`, `ssh_port`. -/
theorem Run_deploy_failure (env : Env) (w : World) (login create deploy : Response)
    (hlogin : loginReply env w = ⟨some login, none⟩)
    (hlogin200 : login.StatusCode = 200)
    (hcopy : precopyIssued env.config = true →
      ∃ c, copyReply env w login.Token = ⟨some c, none⟩ ∧ c.StatusCode = 200)
    (hcreate : createReply env w login.Token = ⟨some create, none⟩)
    (hcreate201 : create.StatusCode = 201)
    (hdeploy : (deployReply env w login.Token).resp = some deploy)
    (hstatus : deploy.StatusCode ≠ 200)
    (herrors : deploy.Errors ≠ []) :
    (Run env w).1 = .returned .ActionHalt ∧
    (Run env w).2.step.createVMFailed = true ∧
    (∃ e, (Run env w).2.bag "error" = some (.err e)) ∧
    (Run env w).2.bag "vmid" = w.bag "vmid" ∧
    (Run env w).2.bag "ssh_host" = w.bag "ssh_host" ∧
    (Run env w).2.bag "ssh_port" = w.bag "ssh_port" := by
  rw [Run_login_ok env w login hlogin hlogin200]
  rw [Run_precopy_ok env login.Token
    { w with
      calls := w.calls ++ [loginRequest env.config]
      bag := w.bag.Put "token" (.str login.Token) } hcopy]
  rw [Run_create_ok env login.Token (actualImage env.config)
    { w with
      calls := if precopyIssued env.config then
          w.calls ++ [loginRequest env.config] ++ [imageCopyRequest env.config login.Token]
        else w.calls ++ [loginRequest env.config]
      bag := w.bag.Put "token" (.str login.Token) } create hcreate hcreate201]
  unfold deployReply callsBeforeCreate at hdeploy
  unfold Run_deploy
  simp only [World.Do, hdeploy, ne_eq, hstatus, not_false_eq_true, if_true]
  cases hE : deploy.Errors with
  | nil => exact absurd hE herrors
  | cons m ms =>
    simp only [true_and]
    split <;> simp [StateBag.Put]

/-! ## The claims, continued -/

/-- C11 (evaluation at the failing input): the deploy call fails with a transport error
and no response; `Run` records the error, then panics on the nil response instead of
returning `ActionHalt`, and `createVMFailed` stays false. -/
theorem C11_deploy_refused_panics :
    deployReply deployRefused World.initial "tok" = refused ∧
    (Run deployRefused World.initial).1 = .panicked .nilDereference ∧
    (Run deployRefused World.initial).2.bag "error" = some (.err "connection refused") ∧
    (Run deployRefused World.initial).2.step.createVMFailed = false := by
  decide

/-- C12 (evaluation at the failing input): on the nominal cleanup path the purge call
fails with a transport error and no response; `Cleanup` records the error, then panics
on the nil response and never issues the health-check call. -/
theorem C12_purge_refused_panics :
    (Run purgeRefused World.initial).1 = .returned .ActionContinue ∧
    (Run purgeRefused World.initial).2.step = stepOrkaCreate.fresh ∧
    purgeRefused.config.NoDeleteVM = false ∧
    purgeRefused.client (Run purgeRefused World.initial).2.calls
      (vmPurgeRequest plainConfig "tok") = refused ∧
    (Cleanup purgeRefused (Run purgeRefused World.initial).2).1 =
      .panicked .nilDereference ∧
    (Cleanup purgeRefused (Run purgeRefused World.initial).2).2.bag "error" =
      some (.err "request failed [connection refused]") ∧
    (Cleanup purgeRefused (Run purgeRefused World.initial).2).2.calls =
      (Run purgeRefused World.initial).2.calls ++ [vmPurgeRequest plainConfig "tok"] := by
  decide

/-- C13: with `EnableOrkaNodeIPMapping` true, when the run reaches a deploy response of
status 200 whose IP is the key of no entry of `OrkaNodeIPMap`, `Run` returns
`ActionHalt`, records an `error`, and leaves `ssh_host` and `ssh_port` of the bag as they
were before the run. -/
theorem C13_unmapped_host_halts (env : Env) (w : World) (login create deploy : Response)
    (hmap : env.config.EnableOrkaNodeIPMapping = true)
    (hlogin : loginReply env w = ⟨some login, none⟩)
    (hlogin200 : login.StatusCode = 200)
    (hcopy : precopyIssued env.config = true →
      ∃ c, copyReply env w login.Token = ⟨some c, none⟩ ∧ c.StatusCode = 200)
    (hcreate : createReply env w login.Token = ⟨some create, none⟩)
    (hcreate201 : create.StatusCode = 201)
    (hdeploy : (deployReply env w login.Token).resp = some deploy)
    (hdeploy200 : deploy.StatusCode = 200)
    (hkey : ∀ p ∈ env.config.OrkaNodeIPMap, p.1 ≠ deploy.IP) :
    (Run env w).1 = .returned .ActionHalt ∧
    (∃ e, (Run env w).2.bag "error" = some (.err e)) ∧
    (Run env w).2.bag "ssh_host" = w.bag "ssh_host" ∧
    (Run env w).2.bag "ssh_port" = w.bag "ssh_port" := by
  obtain ⟨w1, hrun, hbag, _⟩ := Run_reaches_store env w login create deploy hlogin hlogin200
    hcopy hcreate hcreate201 hdeploy hdeploy200
  have hnone : env.config.OrkaNodeIPMap.lookup deploy.IP = none := by
    rw [List.lookup_eq_none_iff]
    intro p hp
    simpa [bne_iff_ne] using (hkey p hp).symm
  have h := Run_store_unmapped env deploy w1 hmap (by rw [hnone]; rfl)
  rw [hrun]
  refine ⟨h.1, h.2.1, ?_, ?_⟩
  · rw [h.2.2.1, hbag "ssh_host" (by decide) (by decide)]
  · rw [h.2.2.2, hbag "ssh_port" (by decide) (by decide)]

/-- C13, at a concrete input: IP mapping enabled, the deploy response reports 10.0.0.5
and the map only knows 10.0.0.9. -/
theorem C13_unmapped_host_witness :
    allGoodUnmapped.config.EnableOrkaNodeIPMapping = true ∧
    deployReply allGoodUnmapped World.initial "tok" = answer 200 [] ∧
    (Run allGoodUnmapped World.initial).1 = .returned .ActionHalt ∧
    (∃ e, (Run allGoodUnmapped World.initial).2.bag "error" = some (.err e)) ∧
    (Run allGoodUnmapped World.initial).2.bag "ssh_host" = World.initial.bag "ssh_host" ∧
    (Run allGoodUnmapped World.initial).2.bag "ssh_port" = World.initial.bag "ssh_port" :=
  ⟨by decide, by decide,
    C13_unmapped_host_halts allGoodUnmapped World.initial (response 200 [] "3.0.0")
      (response 201 [] "3.0.0") (response 200 [] "3.0.0") (by decide) (by decide) (by decide)
      (fun h => absurd h (by decide)) (by decide) (by decide) (by decide) (by decide)
      (by decide)⟩

/-- C14 (counterexample): everything succeeds and the deploy response carries the SSH
port string `ssh`, which is not a decimal integer; `Run` returns `ActionContinue`, records
no error and publishes `ssh_port` 0. -/
theorem C14_counterexample :
    deployReply portNotNumeric World.initial "tok" = deployedWithPort "ssh" ∧
    (Run portNotNumeric World.initial).1 = .returned .ActionContinue ∧
    (Run portNotNumeric World.initial).2.bag "error" = none ∧
    (Run portNotNumeric World.initial).2.bag "ssh_port" = some (.int 0) := by
  decide

/-- C14 (amended): when the run reaches a deploy response of status 200 whose SSH port
string is not an optionally signed decimal number, and the host resolves (IP mapping
disabled, or the IP mapped to a non-empty host), `Run` does not fail: the conversion error
is discarded, `Run` returns `ActionContinue`, records no error beyond a transport error
reported alongside the deploy response, and publishes as `ssh_port` the integer
`strconv.Atoi` returned with its error: 0 when the digits before the first other
character stay within 64 bits, and otherwise the `int64` bound, -9223372036854775808
after a minus sign and 9223372036854775807 without. -/
theorem C14_amended (env : Env) (w : World) (login create deploy : Response)
    (hlogin : loginReply env w = ⟨some login, none⟩)
    (hlogin200 : login.StatusCode = 200)
    (hcopy : precopyIssued env.config = true →
      ∃ c, copyReply env w login.Token = ⟨some c, none⟩ ∧ c.StatusCode = 200)
    (hcreate : createReply env w login.Token = ⟨some create, none⟩)
    (hcreate201 : create.StatusCode = 201)
    (hdeploy : (deployReply env w login.Token).resp = some deploy)
    (hdeploy200 : deploy.StatusCode = 200)
    (hhost : env.config.EnableOrkaNodeIPMapping = false ∨
      ∃ host, env.config.OrkaNodeIPMap.lookup deploy.IP = some host ∧ host ≠ "")
    (hport : parseDigits (unsignedPart deploy.SSHPort) = none) :
    (Run env w).1 = .returned .ActionContinue ∧
    (digitPrefixValue (unsignedPart deploy.SSHPort) < 2 ^ 64 →
      (Run env w).2.bag "ssh_port" = some (.int 0)) ∧
    (2 ^ 64 ≤ digitPrefixValue (unsignedPart deploy.SSHPort) →
      (Run env w).2.bag "ssh_port" =
        some (.int (if deploy.SSHPort.data.head? = some '-' then -(2 ^ 63 : Int)
          else (2 ^ 63 - 1 : Int)))) ∧
    ((deployReply env w login.Token).err = none →
      (Run env w).2.bag "error" = w.bag "error") := by
  obtain ⟨w1, hrun, _, herr⟩ := Run_reaches_store env w login create deploy hlogin hlogin200
    hcopy hcreate hcreate201 hdeploy hdeploy200
  have hres : ∃ host,
      (env.config.EnableOrkaNodeIPMapping = false ∧ host = deploy.IP) ∨
      (env.config.EnableOrkaNodeIPMapping = true ∧
        env.config.OrkaNodeIPMap.lookup deploy.IP = some host ∧ host ≠ "") := by
    cases hm : env.config.EnableOrkaNodeIPMapping with
    | false => exact ⟨deploy.IP, Or.inl ⟨rfl, rfl⟩⟩
    | true =>
      rcases hhost with h | ⟨host, hl, hne⟩
      · rw [hm] at h; exact absurd h (by decide)
      · exact ⟨host, Or.inr ⟨rfl, hl, hne⟩⟩
  obtain ⟨host, hh⟩ := hres
  have h := Run_store_resolved env deploy w1 host hh
  have hA := Atoi_not_decimal deploy.SSHPort hport
  rw [hrun]
  refine ⟨h.1, fun hlt => ?_, fun hge => ?_, fun hn => ?_⟩
  · rw [h.2.2.2.1, hA.2.1 hlt]
  · rw [h.2.2.2.1, hA.2.2 hge]
  · rw [h.2.2.2.2, herr hn]

/-- C14 (amended), at a concrete input: the deploy response carries the port string
`99999999999999999999x`, twenty digits that go beyond 64 bits and then a letter; `Run`
continues and publishes the `ssh_port` 9223372036854775807. -/
theorem C14_amended_witness :
    deployReply portOverflowThenLetter World.initial "tok" =
      deployedWithPort "99999999999999999999x" ∧
    parseDigits (unsignedPart "99999999999999999999x") = none ∧
    2 ^ 64 ≤ digitPrefixValue (unsignedPart "99999999999999999999x") ∧
    (Run portOverflowThenLetter World.initial).1 = .returned .ActionContinue ∧
    (Run portOverflowThenLetter World.initial).2.bag "ssh_port" =
      some (.int (if "99999999999999999999x".data.head? = some '-' then -(2 ^ 63 : Int)
        else (2 ^ 63 - 1 : Int))) ∧
    (Run portOverflowThenLetter World.initial).2.bag "ssh_port" =
      some (.int 9223372036854775807) :=
  ⟨by decide, by decide, by decide,
    (C14_amended portOverflowThenLetter World.initial (response 200 [] "3.0.0")
      (response 201 [] "3.0.0")
      { response 200 [] "3.0.0" with SSHPort := "99999999999999999999x" }
      (by decide) (by decide) (fun h => absurd h (by decide)) (by decide) (by decide)
      (by decide) (by decide) (Or.inl (by decide)) (by decide)).1,
    (C14_amended portOverflowThenLetter World.initial (response 200 [] "3.0.0")
      (response 201 [] "3.0.0")
      { response 200 [] "3.0.0" with SSHPort := "99999999999999999999x" }
      (by decide) (by decide) (fun h => absurd h (by decide)) (by decide) (by decide)
      (by decide) (by decide) (Or.inl (by decide)) (by decide)).2.2.1 (by decide),
    by decide⟩

/-- C15 (counterexample): with IP mapping enabled and the IP of the deploy response a key
of the map whose value is the empty string, `Run` returns `ActionHalt` and publishes no
`ssh_host`; and with the decimal port string 99999999999999999999 `Run` publishes the
`ssh_port` 9223372036854775807, not the value of the string. -/
theorem C15_counterexample :
    (allGoodEmptyHost.config.EnableOrkaNodeIPMapping = true ∧
      deployReply allGoodEmptyHost World.initial "tok" = answer 200 [] ∧
      allGoodEmptyHost.config.OrkaNodeIPMap.lookup "10.0.0.5" = some "" ∧
      (Run allGoodEmptyHost World.initial).1 = .returned .ActionHalt ∧
      (Run allGoodEmptyHost World.initial).2.bag "ssh_host" = none) ∧
    (deployReply portTooLarge World.initial "tok" = deployedWithPort "99999999999999999999" ∧
      parseDigits "99999999999999999999".data = some 99999999999999999999 ∧
      (Run portTooLarge World.initial).1 = .returned .ActionContinue ∧
      (Run portTooLarge World.initial).2.bag "ssh_port" = some (.int 9223372036854775807)) := by
  decide

/-- C15 (amended): when the login, the pre-copy call (when issued), the VM-configuration
call and the deploy call all succeed, the port string of the deploy response is a
non-empty string of decimal digits whose value `n` is below 2^63, and the host resolves to
`host` (the IP of the deploy response when IP mapping is disabled, the mapped value when
it is enabled and that value is not empty), `Run` returns `ActionContinue` and publishes
`ssh_host = host`, `ssh_port = n` and `vmid` equal to the VM identifier of the deploy
response. -/
theorem C15_amended (env : Env) (w : World) (login create deploy : Response) (host : String)
    (n : Nat)
    (hlogin : loginReply env w = ⟨some login, none⟩)
    (hlogin200 : login.StatusCode = 200)
    (hcopy : precopyIssued env.config = true →
      ∃ c, copyReply env w login.Token = ⟨some c, none⟩ ∧ c.StatusCode = 200)
    (hcreate : createReply env w login.Token = ⟨some create, none⟩)
    (hcreate201 : create.StatusCode = 201)
    (hdeploy : (deployReply env w login.Token).resp = some deploy)
    (hdeploy200 : deploy.StatusCode = 200)
    (hhost : (env.config.EnableOrkaNodeIPMapping = false ∧ host = deploy.IP) ∨
      (env.config.EnableOrkaNodeIPMapping = true ∧
        env.config.OrkaNodeIPMap.lookup deploy.IP = some host ∧ host ≠ ""))
    (hport : parseDigits deploy.SSHPort.data = some n)
    (hrange : n < 2 ^ 63) :
    (Run env w).1 = .returned .ActionContinue ∧
    (Run env w).2.bag "ssh_host" = some (.str host) ∧
    (Run env w).2.bag "ssh_port" = some (.int (n : Int)) ∧
    (Run env w).2.bag "vmid" = some (.str deploy.VMId) := by
  obtain ⟨w1, hrun, _, _⟩ := Run_reaches_store env w login create deploy hlogin hlogin200
    hcopy hcreate hcreate201 hdeploy hdeploy200
  have h := Run_store_resolved env deploy w1 host hhost
  rw [hrun]
  refine ⟨h.1, h.2.2.1, ?_, h.2.1⟩
  rw [h.2.2.2.1, Atoi_digits deploy.SSHPort n hport hrange]

/-- C15 (amended), at a concrete input: IP mapping enabled, the IP 10.0.0.5 mapped to
`node-5.internal`, the port string 8822. -/
theorem C15_amended_witness :
    allGoodMapped.config.EnableOrkaNodeIPMapping = true ∧
    allGoodMapped.config.OrkaNodeIPMap.lookup "10.0.0.5" = some "node-5.internal" ∧
    deployReply allGoodMapped World.initial "tok" = answer 200 [] ∧
    (Run allGoodMapped World.initial).1 = .returned .ActionContinue ∧
    (Run allGoodMapped World.initial).2.bag "ssh_host" = some (.str "node-5.internal") ∧
    (Run allGoodMapped World.initial).2.bag "ssh_port" = some (.int ((8822 : Nat) : Int)) ∧
    (Run allGoodMapped World.initial).2.bag "vmid" =
      some (.str (response 200 [] "3.0.0").VMId) :=
  ⟨by decide, by decide, by decide,
    C15_amended allGoodMapped World.initial (response 200 [] "3.0.0")
      (response 201 [] "3.0.0") (response 200 [] "3.0.0") "node-5.internal" 8822
      (by decide) (by decide) (fun h => absurd h (by decide)) (by decide) (by decide)
      (by decide) (by decide) (Or.inr ⟨by decide, by decide, by decide⟩) (by decide)
      (by decide)⟩

/-- A VM-configuration call among the requests `Run` issues is the request `Run` builds
for the image it has chosen, and a pre-copy call is then among the requests issued
exactly when `ImagePrecopy` is true and `NoCreateImage` is false. -/
theorem Run_create_call (env : Env) (w : World) (l : List Request)
    (r : Request)
    (hl : (Run env w).2.calls = w.calls ++ l)
    (hr : r ∈ l)
    (hcreate : isCreateCall env.config r) :
    ∃ token,
      r = vmCreateConfigRequest env.config token
        (if env.config.ImagePrecopy = true ∧ env.config.NoCreateImage = false then
          env.config.ImageName else env.config.SourceImage) ∧
      (env.config.ImagePrecopy = true ∧ env.config.NoCreateImage = false →
        ∃ c, copyReply env w token = ⟨some c, none⟩ ∧ c.StatusCode = 200) ∧
      ((∃ q ∈ l, isCopyCall env.config q) ↔
        (env.config.ImagePrecopy = true ∧ env.config.NoCreateImage = false)) := by
  have hissued : precopyIssued env.config = true ↔
      (env.config.ImagePrecopy = true ∧ env.config.NoCreateImage = false) := by
    unfold precopyIssued
    simp
  have himage : actualImage env.config =
      (if env.config.ImagePrecopy = true ∧ env.config.NoCreateImage = false then
        env.config.ImageName else env.config.SourceImage) := by
    unfold actualImage
    by_cases hp : precopyIssued env.config = true
    · rw [if_pos hp, if_pos (hissued.1 hp)]
    · rw [if_neg hp, if_neg (fun h => hp (hissued.2 h))]
  rcases Run_calls env w with h | ⟨login, _, _, h⟩
  · -- only the login request was issued
    rw [hl] at h
    have hl1 := List.append_cancel_left h
    subst hl1
    simp only [List.mem_singleton] at hr
    subst hr
    exact absurd hcreate (loginRequest_not_create env.config)
  · rcases h with ⟨_, h⟩ | ⟨hcopy, h⟩
    · -- the run stopped at the pre-copy call
      rw [hl] at h
      have hl1 := List.append_cancel_left h
      subst hl1
      simp only [List.mem_cons, List.mem_singleton, List.not_mem_nil, or_false] at hr
      rcases hr with rfl | rfl
      · exact absurd hcreate (loginRequest_not_create env.config)
      · exact absurd hcreate (imageCopyRequest_not_create env.config _)
    · -- the run reached the VM-configuration call
      refine ⟨login.Token, ?_, fun hc => hcopy (hissued.2 hc), ?_⟩
      · rw [← himage]
        unfold callsBeforeCreate at h
        by_cases hp : precopyIssued env.config = true
        · simp only [hp, if_true, List.append_assoc] at h
          rw [hl] at h
          rcases h with h | h
          all_goals
            have hl1 := List.append_cancel_left h
            subst hl1
            simp only [List.mem_cons, List.mem_singleton, List.mem_append, List.not_mem_nil,
              or_false] at hr
            rcases hr with rfl | rfl | hr
            · exact absurd hcreate (loginRequest_not_create env.config)
            · exact absurd hcreate (imageCopyRequest_not_create env.config _)
            · first
              | exact hr
              | (rcases hr with rfl | rfl
                 · rfl
                 · exact absurd hcreate (vmDeployRequest_not_create env.config _))
        · simp only [hp, if_false, List.append_assoc, Bool.false_eq_true] at h
          rw [hl] at h
          rcases h with h | h
          all_goals
            have hl1 := List.append_cancel_left h
            subst hl1
            simp only [List.mem_cons, List.mem_singleton, List.mem_append, List.not_mem_nil,
              or_false] at hr
            rcases hr with rfl | hr
            · exact absurd hcreate (loginRequest_not_create env.config)
            · first
              | exact hr
              | (rcases hr with rfl | rfl
                 · rfl
                 · exact absurd hcreate (vmDeployRequest_not_create env.config _))
      · rw [← hissued]
        unfold callsBeforeCreate at h
        by_cases hp : precopyIssued env.config = true
        · simp only [hp, if_true, List.append_assoc] at h
          rw [hl] at h
          refine ⟨fun _ => hp, fun _ => ⟨imageCopyRequest env.config login.Token, ?_,
            imageCopyRequest_isCopyCall env.config _⟩⟩
          rcases h with h | h
          all_goals
            have hl1 := List.append_cancel_left h
            subst hl1
            simp
        · simp only [hp, if_false, List.append_assoc, Bool.false_eq_true] at h
          rw [hl] at h
          refine ⟨fun ⟨q, hq, hqc⟩ => ?_, fun h' => absurd h' hp⟩
          rcases h with h | h
          all_goals
            have hl1 := List.append_cancel_left h
            subst hl1
            simp only [List.mem_cons, List.mem_singleton, List.mem_append, List.not_mem_nil,
              or_false] at hq
          · rcases hq with rfl | rfl
            · exact absurd hqc (loginRequest_not_copy env.config)
            · exact absurd hqc (vmCreateConfigRequest_not_copy env.config _ _)
          · rcases hq with rfl | rfl | rfl
            · exact absurd hqc (loginRequest_not_copy env.config)
            · exact absurd hqc (vmCreateConfigRequest_not_copy env.config _ _)
            · exact absurd hqc (vmDeployRequest_not_copy env.config _)

/-- C16: in every run, for every configuration, client and starting world, a
VM-configuration call among the requests `Run` issues carries a body whose image field is
the destination image `ImageName` when `ImagePrecopy` is true and `NoCreateImage` is
false, the pre-copy call then having been answered 200, and the source image
`SourceImage` otherwise; and in such a run a pre-copy call is among the requests issued
if and only if `ImagePrecopy` is true and `NoCreateImage` is false. -/
theorem C16_create_names_actual_image (env : Env) (w : World) (l : List Request)
    (r : Request)
    (hl : (Run env w).2.calls = w.calls ++ l)
    (hr : r ∈ l)
    (hcreate : isCreateCall env.config r) :
    r.body =
      Payload.VMCreateRequest env.config.OrkaVMBuilderName
        (if env.config.ImagePrecopy = true ∧ env.config.NoCreateImage = false then
          env.config.ImageName else env.config.SourceImage)
        env.config.OrkaVMBuilderName env.config.OrkaVMCPUCore env.config.OrkaVMCPUCore
        env.config.OrkaVMBuilderEnableIOBoost env.config.OrkaVMTag ∧
    (∃ token,
      r.authorization = some ("Bearer " ++ token) ∧
      (env.config.ImagePrecopy = true ∧ env.config.NoCreateImage = false →
        ∃ c, copyReply env w token = ⟨some c, none⟩ ∧ c.StatusCode = 200)) ∧
    ((∃ q ∈ l, isCopyCall env.config q) ↔
      (env.config.ImagePrecopy = true ∧ env.config.NoCreateImage = false)) := by
  obtain ⟨token, hreq, hcopy, hiff⟩ := Run_create_call env w l r hl hr hcreate
  subst hreq
  exact ⟨rfl, ⟨token, rfl, hcopy⟩, hiff⟩

/-- C16, at concrete inputs: with pre-copy configured and everything succeeding, the
VM-configuration request names the destination image `copy.img`. -/
theorem C16_create_names_actual_image_witness :
    (Run allGoodPrecopy World.initial).2.calls =
      World.initial.calls ++
        [loginRequest precopyConfig, imageCopyRequest precopyConfig "tok",
          vmCreateConfigRequest precopyConfig "tok" "copy.img",
          vmDeployRequest precopyConfig "tok"] ∧
    allGoodPrecopy.config.ImagePrecopy = true ∧
    allGoodPrecopy.config.NoCreateImage = false ∧
    (vmCreateConfigRequest precopyConfig "tok" "copy.img").body =
      Payload.VMCreateRequest "builder" "copy.img" "builder" 3 3 true "" ∧
    (vmCreateConfigRequest precopyConfig "tok" "copy.img").body =
      Payload.VMCreateRequest allGoodPrecopy.config.OrkaVMBuilderName
        (if allGoodPrecopy.config.ImagePrecopy = true ∧
            allGoodPrecopy.config.NoCreateImage = false then
          allGoodPrecopy.config.ImageName else allGoodPrecopy.config.SourceImage)
        allGoodPrecopy.config.OrkaVMBuilderName allGoodPrecopy.config.OrkaVMCPUCore
        allGoodPrecopy.config.OrkaVMCPUCore allGoodPrecopy.config.OrkaVMBuilderEnableIOBoost
        allGoodPrecopy.config.OrkaVMTag :=
  ⟨by decide, by decide, by decide, by decide,
    (C16_create_names_actual_image allGoodPrecopy World.initial
      [loginRequest precopyConfig, imageCopyRequest precopyConfig "tok",
        vmCreateConfigRequest precopyConfig "tok" "copy.img",
        vmDeployRequest precopyConfig "tok"]
      (vmCreateConfigRequest precopyConfig "tok" "copy.img") (by decide) (by decide)
      ⟨by decide, by decide⟩).1⟩

/-- C17: for every configuration, client and starting world, after `Run` has returned
with `loginFailed` false the bag holds, as a string, the token of the login response;
the `Cleanup` that follows does not panic on the token lookup, and every request it
issues either carries no authorization or carries `Bearer` followed by that token. -/
theorem C17_token_defined_for_cleanup (env : Env) (w : World) (a : StepAction)
    (hret : (Run env w).1 = .returned a)
    (hlf : (Run env w).2.step.loginFailed = false) :
    ∃ login, loginReply env w = ⟨some login, none⟩ ∧
      (Run env w).2.bag "token" = some (.str login.Token) ∧
      (Cleanup env (Run env w).2).1 ≠ .panicked .typeAssertion ∧
      ∃ l, (Cleanup env (Run env w).2).2.calls = (Run env w).2.calls ++ l ∧
        ∀ r ∈ l, r.authorization = none ∨
          r.authorization = some ("Bearer " ++ login.Token) := by
  obtain ⟨login, hl, _, htok⟩ := Run_returned_logged_in env w a hret hlf
  obtain ⟨l, hcalls, hmem⟩ := Cleanup_issued env (Run env w).2 login.Token htok
  refine ⟨login, hl, htok, Cleanup_lookup_defined env _ login.Token htok, l, hcalls, ?_⟩
  intro r hr
  have h := hmem r hr
  simp only [List.mem_cons, List.mem_singleton, List.not_mem_nil, or_false] at h
  rcases h with rfl | rfl | rfl | rfl
  · exact Or.inr rfl
  · exact Or.inr rfl
  · exact Or.inl rfl
  · exact Or.inr rfl

/-- C17, at a concrete input: everything succeeds and the platform reports 2.1.0, so
that `Cleanup` issues all three of its nominal requests. -/
theorem C17_token_defined_witness :
    (Run allGoodOld World.initial).1 = .returned .ActionContinue ∧
    (Run allGoodOld World.initial).2.step.loginFailed = false ∧
    ∃ login, loginReply allGoodOld World.initial = ⟨some login, none⟩ ∧
      (Run allGoodOld World.initial).2.bag "token" = some (.str login.Token) ∧
      (Cleanup allGoodOld (Run allGoodOld World.initial).2).1 ≠ .panicked .typeAssertion ∧
      ∃ l, (Cleanup allGoodOld (Run allGoodOld World.initial).2).2.calls =
          (Run allGoodOld World.initial).2.calls ++ l ∧
        ∀ r ∈ l, r.authorization = none ∨
          r.authorization = some ("Bearer " ++ login.Token) :=
  ⟨by decide, by decide,
    C17_token_defined_for_cleanup allGoodOld World.initial .ActionContinue (by decide)
      (by decide)⟩

/-- C18 (evaluation at the failing inputs): a login, pre-copy, VM-configuration or deploy
call answered with a non-success status and a body without error entry; in each case
`Run` does not return `ActionHalt` but panics on the access to `Errors[0]`. -/
theorem C18_status_without_errors_panics :
    (loginReply loginRejectedBare World.initial = answer 401 [] ∧
      (Run loginRejectedBare World.initial).1 = .panicked .indexOutOfRange) ∧
    (copyReply copyRejectedBare World.initial "tok" = answer 500 [] ∧
      (Run copyRejectedBare World.initial).1 = .panicked .indexOutOfRange) ∧
    (createReply createRejectedBare World.initial "tok" = answer 500 [] ∧
      (Run createRejectedBare World.initial).1 = .panicked .indexOutOfRange) ∧
    (deployReply deployRejectedBare World.initial "tok" = answer 500 [] ∧
      (Run deployRejectedBare World.initial).1 = .panicked .indexOutOfRange) := by
  decide

end Orka
